import Mathlib

/-!
Verification development for the kernel discovery, caching and preferred-kernel
selection core of the vscode-jupyter source tree.

The definitions below are a shallow embedding of:
  * `UniversalRemoteKernelFinder` (src/kernels/jupyter/finder/universalRemoteKernelFinder.ts):
    the per-server remote caching finder (`loadCache`, `updateCache`,
    `getFromCache`, `writeToCache`, `isValidCachedKernel`);
  * `KernelFinder` (src/kernels/kernelFinder.ts): the finder aggregator
    (`listKernels`);
  * `ControllerPreferredService` (src/notebooks/controllers/kernelSource/
    notebookKernelSourceTracker.ts): the preferred-kernel selection
    coordinator (`computePreferred`, `findPreferredKernelExactMatch`).

Asynchronous collaborators (session manager fetch, memento store, cached-kernel
validator, interpreter lookup, ranking helper) are modelled as explicit
environment parameters, following the single-threaded cooperative execution
model of the extension host: awaited operations are suspension points, code
between suspension points runs atomically, and cancellation tokens are read
explicitly at the points the source reads them.
-/

/-! ## Data model: remote kernel connection candidates -/

/-- Discriminant of `RemoteKernelConnectionMetadata` (src/kernels/types):
a remote candidate is either a kernel spec (`startUsingRemoteKernelSpec`)
or a running live session (`connectToLiveRemoteKernel`). -/
inductive RemoteKernelKind
  | startUsingRemoteKernelSpec
  | connectToLiveRemoteKernel
deriving DecidableEq, Repr

/-- Shallow embedding of one `RemoteKernelConnectionMetadata` candidate.
Only the fields the cache logic inspects (`kind`, `id`) are kept structural;
`serverId`/`baseUrl` stand for the remaining payload so that equality of
candidates is meaningful for round-trip statements. -/
structure RemoteKernelMeta where
  kind : RemoteKernelKind
  id : String
  serverId : String
  baseUrl : String
deriving DecidableEq, Repr

/-- Modelled from the spec: `serializeKernelConnection` (src/kernels/helpers.ts is
not among the provided sources). The spec's cache-entry contract only requires
that serialization followed by deserialization reproduces an equivalent
candidate, so the serialized form is modelled as the candidate itself. -/
def serializeKernelConnection (k : RemoteKernelMeta) : RemoteKernelMeta := k

/-- Modelled from the spec: `deserializeKernelConnection` (src/kernels/helpers.ts
is not among the provided sources), inverse of `serializeKernelConnection`. -/
def deserializeKernelConnection (k : RemoteKernelMeta) : RemoteKernelMeta := k

/-- Content stored in the memento under the finder's cache key:
`{ kernels: serialized candidates, extensionVersion: string }`
(`UniversalRemoteKernelFinder.writeToCache` / `getFromCache`). -/
structure StoreEntry where
  kernels : List RemoteKernelMeta
  extensionVersion : String
deriving DecidableEq, Repr

/-- State of one `CancellationTokenSource` (`_cacheUpdateCancelTokenSource`):
whether its token has been cancelled and whether the source was disposed. -/
structure TokenSource where
  cancelled : Bool
  disposed : Bool
deriving DecidableEq, Repr

/-- Token-lifecycle events of `updateCache`'s prologue, in execution order. -/
inductive UpdEvent
  | disposedOld
  | createdNew
  | installedNew
deriving DecidableEq, Repr

/-- Mutable state of one `UniversalRemoteKernelFinder`: the in-memory cache
(`this.cache`), the memento content under this finder's key (`globalState`),
the number of `_onDidChangeKernels` notifications fired, the number of
`writeToCache` invocations, the current `_cacheUpdateCancelTokenSource`, the
final states of replaced token sources, and the token-lifecycle event log. -/
structure FinderState where
  cache : List RemoteKernelMeta
  store : StoreEntry
  events : Nat
  writes : Nat
  current : Option TokenSource
  retired : List TokenSource
  trace : List UpdEvent
deriving DecidableEq, Repr

/-- Initial state of a freshly constructed finder: empty in-memory cache and
the memento default `{ kernels: [], extensionVersion: '' }`. -/
def initialFinderState : FinderState :=
  { cache := [], store := { kernels := [], extensionVersion := "" }
  , events := 0, writes := 0, current := none, retired := [], trace := [] }

/-- Environment of a finder run: the outcome of one live fetch
(`getRemoteConnectionInfo` + `listKernelsFromConnection`, `.error` when the
fetch rejects), the external cached-kernel validator, the running build's
`extensionVersion`, whether the durable memento update succeeds, whether the
body of `getFromCache` throws, and whether the refresh's cancellation token is
observed signalled at the post-fetch check. -/
structure FinderEnv where
  fetch : Except Unit (List RemoteKernelMeta)
  validator : RemoteKernelMeta → Bool
  extensionVersion : String
  storeOk : Bool
  readFails : Bool
  cancelSignalled : Bool

namespace UniversalRemoteKernelFinder

/-- Embedding of `UniversalRemoteKernelFinder.isValidCachedKernel`:
cached kernel specs are never valid (always re-fetched); cached live
sessions are delegated to the external validator. -/
def isValidCachedKernel (validator : RemoteKernelMeta → Bool)
    (kernel : RemoteKernelMeta) : Bool :=
  match kernel.kind with
  | .startUsingRemoteKernelSpec => false
  | .connectToLiveRemoteKernel => validator kernel

/-- Embedding of `UniversalRemoteKernelFinder.getFromCache`: start from the
in-memory cache; if empty, rehydrate from the memento only when the stored
`extensionVersion` equals the running build's version (installing the
rehydrated list in memory); then keep only candidates accepted by
`isValidCachedKernel`. The surrounding try/catch converts any failure into the
empty list (`env.readFails` injects such a failure). Returns the valid values
and the possibly-updated state. -/
def getFromCache (env : FinderEnv) (st : FinderState) :
    List RemoteKernelMeta × FinderState :=
  if env.readFails then ([], st)
  else
    let loaded :=
      if st.cache.isEmpty then
        if st.store.extensionVersion = env.extensionVersion then
          let rs := st.store.kernels.map deserializeKernelConnection
          (rs, { st with cache := rs })
        else (st.cache, st)
      else (st.cache, st)
    (loaded.1.filter (isValidCachedKernel env.validator), loaded.2)

/-- Embedding of `UniversalRemoteKernelFinder.writeToCache`: count the call,
replace the in-memory cache first, then attempt the durable memento update;
only a successful durable update stores the serialized entry and fires the
change notification — a storage/serialization failure is swallowed after
logging, leaving the durable copy and the notification count unchanged. -/
def writeToCache (env : FinderEnv) (values : List RemoteKernelMeta)
    (st : FinderState) : FinderState :=
  let st1 := { st with writes := st.writes + 1, cache := values }
  if env.storeOk then
    { st1 with
      store := { kernels := values.map serializeKernelConnection
               , extensionVersion := env.extensionVersion }
      , events := st1.events + 1 }
  else st1

/-- Embedding of `UniversalRemoteKernelFinder.updateCache`: dispose (without
cancelling) the previous refresh's token source, create and install a new one;
live-fetch candidates, falling back on failure to the validated cache filtered
to only `connectToLiveRemoteKernel` entries; if the new token is observed
cancelled at the post-fetch check, write nothing, else write the result
through `writeToCache`. -/
def updateCache (env : FinderEnv) (st : FinderState) : FinderState :=
  -- prologue: `this._cacheUpdateCancelTokenSource?.dispose()` then create + install
  let retired' := match st.current with
    | some ts => st.retired ++ [{ ts with disposed := true }]
    | none => st.retired
  let trace' := st.trace ++
    (match st.current with | some _ => [UpdEvent.disposedOld] | none => []) ++
    [UpdEvent.createdNew, UpdEvent.installedNew]
  let newTok : TokenSource := { cancelled := env.cancelSignalled, disposed := false }
  let st1 := { st with retired := retired', trace := trace', current := some newTok }
  match env.fetch with
  | .ok kernels =>
      if env.cancelSignalled then st1 else writeToCache env kernels st1
  | .error _ =>
      let fromCache := getFromCache env st1
      let kernels := fromCache.1.filter (fun k =>
        match k.kind with
        | .connectToLiveRemoteKernel => true
        | .startUsingRemoteKernelSpec => false)
      if env.cancelSignalled then fromCache.2
      else writeToCache env kernels fromCache.2

/-- State of a freshly constructed finder that shares the durable store of a
previous run (same `globalState` key): empty in-memory cache over the
persisted memento content. -/
def freshFromStore (st : FinderState) : FinderState :=
  { initialFinderState with store := st.store }

/-- Result of a `loadCache` run: the final state, the kernels the finder
settled on, whether a background `updateCache` refresh was kicked off, and how
many synchronous live fetches were performed. -/
structure LoadOut where
  state : FinderState
  kernels : List RemoteKernelMeta
  bgKicked : Bool
  fetchCount : Nat
deriving Repr

/-- Embedding of `UniversalRemoteKernelFinder.loadCache`: read the validated
cache; if non-empty serve it and kick a background `updateCache` (modelled as
a flag — its execution interleaves later); if empty perform exactly one
synchronous live fetch with no fallback (a rejected fetch is logged and yields
the empty list); in both paths the settled kernels are written through
`writeToCache`. -/
def loadCache (env : FinderEnv) (st : FinderState) : LoadOut :=
  let fromCache := getFromCache env st
  if fromCache.1.isEmpty then
    let kernels := match env.fetch with
      | .ok ks => ks
      | .error _ => []
    { state := writeToCache env kernels fromCache.2
    , kernels := kernels, bgKicked := false, fetchCount := 1 }
  else
    { state := writeToCache env fromCache.1 fromCache.2
    , kernels := fromCache.1, bgKicked := true, fetchCount := 0 }

end UniversalRemoteKernelFinder

/-! ## Finder aggregator (`KernelFinder`, src/kernels/kernelFinder.ts) -/

/-- The `{id, displayName}` stamp (`kernelFinderInfo`) attached to each
candidate by the aggregator. -/
structure StampInfo where
  id : String
  displayName : String
deriving DecidableEq, Repr

/-- Candidate connection as seen by the aggregator: an identifier plus the
`kernelFinderInfo` stamp (absent until the aggregator stamps it). -/
structure KernelCand where
  id : String
  kernelFinderInfo : Option StampInfo
deriving DecidableEq, Repr

/-- One registered `IContributedKernelFinder`: id, display name, the time at
which its `initialized` readiness promise resolves, and its synchronous
`listContributedKernels` result as a function of the time it is queried at. -/
structure ContribFinder where
  id : String
  displayName : String
  readyAt : Nat
  kernelsAt : Nat → List KernelCand

namespace KernelFinder

/-- Completion time of `Promise.all(finders.map(f => f.initialized))` when the
wait starts at time `t0`: the readiness promises are awaited in parallel, so
the wait ends at the latest readiness time (never summed). -/
def readinessWaitEnd (finders : List ContribFinder) (t0 : Nat) : Nat :=
  finders.foldl (fun acc f => max acc f.readyAt) t0

/-- Embedding of `KernelFinder.listKernels`: wait (in parallel) for every
registered finder's readiness, then — unless the cancellation token is
observed signalled — query each finder's `listContributedKernels` in
registration order at the post-wait time, stamping each candidate with the
originating finder's `{id, displayName}`, and concatenate. -/
def listKernels (finders : List ContribFinder) (t0 : Nat)
    (cancelAfterWait : Bool) : List KernelCand :=
  let endTime := readinessWaitEnd finders t0
  if cancelAfterWait then []
  else finders.flatMap (fun f =>
    (f.kernelsAt endTime).map (fun k =>
      { k with kernelFinderInfo := some { id := f.id, displayName := f.displayName } }))

end KernelFinder

/-! ## Preferred-kernel selection (`ControllerPreferredService`) -/

/-- The distinguished Python language id (PYTHON_LANGUAGE,
src/platform/common/constants). -/
def PYTHON_LANGUAGE : String := "python"

/-- Notebook document type: the two recognized notebook-like view types plus
anything else. -/
inductive NbType
  | jupyterNotebook
  | interactiveWindow
  | other
deriving DecidableEq, Repr

/-- Kernel connection candidate as seen by the ranking/selection code: its id
and the language `getKernelConnectionLanguage` reads off its metadata. -/
structure KernelConn where
  id : String
  language : Option String
deriving DecidableEq, Repr

/-- Notebook controller affinity levels used by `computePreferred`
(`NotebookControllerAffinity.Default` / `.Preferred`). -/
inductive Affinity
  | Default
  | Preferred
deriving DecidableEq, Repr

/-- Observable side effects of a `computePreferred` run. -/
inductive CPEffect
  | affinityUpdate (controllerId : String) (affinity : Affinity)
  | earlyRegister (connId : String)
  | telemetryPreferred (found : Bool)
  | telemetryMatch (reason : Nat)
  | storeMapping (controllerId : String)
deriving DecidableEq, Repr

/-- A side effect together with the suspension-point tick at which it was
performed. -/
structure TimedEffect where
  eff : CPEffect
  tick : Nat
deriving DecidableEq, Repr

/-! Modelled from the spec: the `PreferredKernelExactMatchReason` bit flags
(src/notebooks/controllers/types.ts is not among the provided sources). The
spec describes the telemetry payload as a bit-combination of the four
conditions, defaulting to "no match" when none held. -/

namespace PreferredKernelExactMatchReason

def NoMatch : Nat := 0

def OnlyKernel : Nat := 1

def WasPreferredInterpreter : Nat := 2

def IsExactMatch : Nat := 4

def IsNonPythonKernelLanguageMatch : Nat := 8

end PreferredKernelExactMatchReason

/-- State of a cancellation token under the cooperative scheduling model: the
token is cancelled from tick `n` onwards when the flip tick is `some n`, and
never when it is `none`. -/
def cancelledAt (c : Option Nat) (t : Nat) : Bool :=
  match c with
  | none => false
  | some n => decide (n ≤ t)

/-- One awaited suspension point starting from tick `t`: the clock advances to
`t + 1`; the awaited operation rejects (throws) when the injected failure tick
`thr` equals the new tick, yielding `none`. -/
def awaitTick (thr : Option Nat) (t : Nat) : Option Nat :=
  if thr = some (t + 1) then none else some (t + 1)

/-- Collaborator policies consumed by `findPreferredKernelExactMatch`: whether
a candidate matches the resolved preferred interpreter
(`findKernelSpecMatchingInterpreter`), the injectable exact-match policy
(`kernelRankHelper.isExactMatch`), and the language declared by the notebook
metadata (`getLanguageInNotebookMetadata`; `none` also stands for the falsy
empty result). -/
structure FPEnv where
  matchesPreferredInterpreter : KernelConn → Bool
  isExactMatch : KernelConn → Bool
  languageInNotebookMetadata : Option String

/-- Embedding of the `isNonPythonLanguageMatch` condition: the metadata
declares a (truthy) language other than Python and the top candidate's
language strictly equals it. -/
def isNonPythonLanguageMatchB (lang : Option String) (top : KernelConn) : Bool :=
  match lang with
  | none => false
  | some l => !(l == "") && !(l == PYTHON_LANGUAGE) && (top.language == some l)

/-- Return value of `findPreferredKernelExactMatch`: the ranked pool (as the
source returns it, `none` on cancellation) and the preferred connection. -/
structure FPResult where
  rankedConnections : Option (List KernelConn)
  preferredConnection : Option KernelConn
deriving DecidableEq, Repr

/-- Embedding of `ControllerPreferredService.findPreferredKernelExactMatch`,
threading the suspension-point clock. `ranked` is the result of the awaited
`kernelRankHelper.rankKernels` call (worst-to-best; the top candidate is the
last element). Verbatim from the source: the token is read after each of the
three awaited collaborator calls, returning both fields `undefined` when
cancelled; with a non-empty pool the four conditions are evaluated against the
last element, the preferred connection is reported iff one of them holds, and
the matched-reason bit-combination is sent to telemetry. Returns `none` when
the awaited operation at the injected failure tick rejects. -/
def findPreferredKernelExactMatch (env : FPEnv) (ranked : Option (List KernelConn))
    (c thr : Option Nat) (t0 : Nat) :
    Option (FPResult × Nat × List TimedEffect) :=
  match awaitTick thr t0 with
  | none => none
  | some t1 =>
    if cancelledAt c t1 then some ({ rankedConnections := none, preferredConnection := none }, t1, [])
    else
      match ranked with
      | some (x :: xs) =>
        let pool := x :: xs
        let potentialMatch := pool.getLast (by simp)
        let onlyConnection : Bool := pool.length == 1
        match awaitTick thr t1 with
        | none => none
        | some t2 =>
          let topMatchIsPreferredInterpreter := env.matchesPreferredInterpreter potentialMatch
          if cancelledAt c t2 then
            some ({ rankedConnections := none, preferredConnection := none }, t2, [])
          else
            match awaitTick thr t2 with
            | none => none
            | some t3 =>
              let exactMatch := env.isExactMatch potentialMatch
              if cancelledAt c t3 then
                some ({ rankedConnections := none, preferredConnection := none }, t3, [])
              else
                let nonPythonMatch := isNonPythonLanguageMatchB env.languageInNotebookMetadata potentialMatch
                let preferred :=
                  if onlyConnection || topMatchIsPreferredInterpreter || exactMatch || nonPythonMatch
                  then some potentialMatch else none
                let reason :=
                  (if onlyConnection then PreferredKernelExactMatchReason.OnlyKernel else 0) |||
                  (if topMatchIsPreferredInterpreter then PreferredKernelExactMatchReason.WasPreferredInterpreter else 0) |||
                  (if exactMatch then PreferredKernelExactMatchReason.IsExactMatch else 0) |||
                  (if nonPythonMatch then PreferredKernelExactMatchReason.IsNonPythonKernelLanguageMatch else 0)
                some ({ rankedConnections := some pool, preferredConnection := preferred }, t3,
                      [{ eff := CPEffect.telemetryMatch reason, tick := t3 }])
      | _ => some ({ rankedConnections := ranked, preferredConnection := none }, t1, [])

/-- Environment of one `computePreferred` run: the document's properties, the
host configuration, and the results of the awaited collaborators. -/
structure CPEnv where
  notebookType : NbType
  isLocalLaunch : Bool
  isPythonNotebook : Bool
  resourceIsInteractive : Bool
  defaultPythonControllerConn : Option KernelConn
  serverId : Option String
  pythonExtensionInstalled : Bool
  activeInterpreter : Option String
  matchesInterpreter : Option String → KernelConn → Bool
  isExactMatch : KernelConn → Bool
  languageInNotebookMetadata : Option String
  ranked1 : Option (List KernelConn)
  ranked2 : Option (List KernelConn)
  registeredIds : List String
  registrationGet : KernelConn → NbType → Option String
  defaultInteractiveControllerConn : Option KernelConn
  previousPreferredController : Option String

/-- Return value of `computePreferred`: the preferred connection and the
resolved controller id, both possibly absent. -/
structure CPResult where
  preferredConnection : Option KernelConn
  controller : Option String
deriving DecidableEq, Repr

/-- The empty result `{}` returned on cancellation, failure or no match. -/
def CPResult.empty : CPResult := { preferredConnection := none, controller := none }

/-- Outcome of the body of a `computePreferred` run: the result (`none` when an
uncaught failure leaves the body), the timed side-effect log, the final clock
value, and the tick at which the final candidate resolution against the live
registry (step 7, `registration.get`) executed, if reached. -/
structure CPOut where
  result : Option CPResult
  effects : List TimedEffect
  finalTick : Nat
  step7Tick : Option Nat
deriving DecidableEq, Repr

namespace ControllerPreferredService

/-- Modelled from the spec: the `isJupyterNotebook` document gate
(src/platform/common/utils.ts is not among the provided sources); the spec's
step 1 ignores documents whose type is outside the two recognized
notebook-like types. -/
def isJupyterNotebookDoc (ty : NbType) : Bool :=
  match ty with
  | .jupyterNotebook => true
  | .interactiveWindow => true
  | .other => false

/-- Embedding of the notebook-view search segment of `computePreferred`
(entered when the document is a Jupyter notebook and the short-circuit found
no connection): resolve the preferred-interpreter hint when applicable
(awaited), run `findPreferredKernelExactMatch`, retry once from a fresh pool
when the first pass found nothing, send the found/notfound telemetry, give up
with the empty result when no preferred connection was found, and register the
connection early when it is not among the registered controllers. The
cancellation token is read after every suspension point exactly as in the
source (lines 208, 228, 250 and 264). `Sum.inl` is an early return; `Sum.inr`
carries the found connection, the clock and the accumulated effects to step 7. -/
def jupyterSearch (env : CPEnv) (c thr : Option Nat) (t0 : Nat) :
    Sum CPOut (KernelConn × Nat × List TimedEffect) :=
  let interpCond := env.serverId.isNone &&
    (env.isPythonNotebook || env.resourceIsInteractive) && env.pythonExtensionInstalled
  match (if interpCond then awaitTick thr t0 else some t0) with
  | none => .inl { result := none, effects := [], finalTick := t0 + 1, step7Tick := none }
  | some t1 =>
    let preferredInterpreter := if interpCond then env.activeInterpreter else none
    if cancelledAt c t1 then
      .inl { result := some .empty, effects := [], finalTick := t1, step7Tick := none }
    else
      let fpE : FPEnv :=
        { matchesPreferredInterpreter := env.matchesInterpreter preferredInterpreter
        , isExactMatch := env.isExactMatch
        , languageInNotebookMetadata := env.languageInNotebookMetadata }
      match findPreferredKernelExactMatch fpE env.ranked1 c thr t1 with
      | none => .inl { result := none, effects := [], finalTick := t1 + 1, step7Tick := none }
      | some (r1, t2, e1) =>
        if cancelledAt c t2 then
          .inl { result := some .empty, effects := e1, finalTick := t2, step7Tick := none }
        else
          match (if r1.preferredConnection.isNone
                 then findPreferredKernelExactMatch fpE env.ranked2 c thr t2
                 else some (r1, t2, [])) with
          | none => .inl { result := none, effects := e1, finalTick := t2 + 1, step7Tick := none }
          | some (r2, t3, e2) =>
            let pc := r2.preferredConnection
            if cancelledAt c t3 then
              .inl { result := some .empty, effects := e1 ++ e2, finalTick := t3, step7Tick := none }
            else
              let e3 := e1 ++ e2 ++ [{ eff := CPEffect.telemetryPreferred pc.isSome, tick := t3 }]
              if cancelledAt c t3 && pc.isNone then
                .inl { result := some .empty, effects := e3, finalTick := t3, step7Tick := none }
              else
                match pc with
                | none =>
                  .inl { result := some .empty, effects := e3, finalTick := t3, step7Tick := none }
                | some conn =>
                  let e4 := if env.registeredIds.contains conn.id then e3
                            else e3 ++ [{ eff := CPEffect.earlyRegister conn.id, tick := t3 }]
                  .inr (conn, t3, e4)

/-- Embedding of the interactive-window segment of `computePreferred`: await
the controller loader (line 294), then the default interactive controller
(line 301), reading the cancellation token after each (lines 295 and 306). -/
def interactiveSearch (env : CPEnv) (c thr : Option Nat) (t0 : Nat) :
    Sum CPOut (Option KernelConn × Nat) :=
  match awaitTick thr t0 with
  | none => .inl { result := none, effects := [], finalTick := t0 + 1, step7Tick := none }
  | some t1 =>
    if cancelledAt c t1 then
      .inl { result := some .empty, effects := [], finalTick := t1, step7Tick := none }
    else
      match awaitTick thr t1 with
      | none => .inl { result := none, effects := [], finalTick := t1 + 1, step7Tick := none }
      | some t2 =>
        if cancelledAt c t2 then
          .inl { result := some .empty, effects := [], finalTick := t2, step7Tick := none }
        else
          .inr (env.defaultInteractiveControllerConn, t2)

/-- Embedding of steps 7 and 8 of `computePreferred`: resolve the final
candidate by id and view type against the live registry (`registration.get`,
line 316); when a controller is found, demote the previously preferred
controller's affinity, mark the new one preferred (the two awaited
`updateNotebookAffinity` calls resolve within the same scheduling slot — they
are not suspension points of the cooperative model), read the token (line
333), await the kernel-resource tracking update (line 338), read the token
again (line 343), and only then store the document-to-controller mapping. -/
def step7And8 (env : CPEnv) (c thr : Option Nat) (pc : Option KernelConn)
    (t : Nat) (effs : List TimedEffect) : CPOut :=
  match (match pc with
         | some conn => env.registrationGet conn env.notebookType
         | none => none) with
  | none =>
    { result := some { preferredConnection := pc, controller := none }
    , effects := effs, finalTick := t, step7Tick := some t }
  | some ctrl =>
    let effA := (match env.previousPreferredController with
                 | some prev => [{ eff := CPEffect.affinityUpdate prev Affinity.Default, tick := t }]
                 | none => []) ++
                [{ eff := CPEffect.affinityUpdate ctrl Affinity.Preferred, tick := t }]
    let effs2 := effs ++ effA
    if cancelledAt c t then
      { result := some .empty, effects := effs2, finalTick := t, step7Tick := some t }
    else
      match awaitTick thr t with
      | none => { result := none, effects := effs2, finalTick := t + 1, step7Tick := some t }
      | some t2 =>
        if cancelledAt c t2 then
          { result := some .empty, effects := effs2, finalTick := t2, step7Tick := some t }
        else
          { result := some { preferredConnection := pc, controller := some ctrl }
          , effects := effs2 ++ [{ eff := CPEffect.storeMapping ctrl, tick := t2 }]
          , finalTick := t2, step7Tick := some t }

/-- Embedding of the body of `ControllerPreferredService.computePreferred`
(inside its try/catch): gate on the recognized document types; run the
default-Python-controller short-circuit (step 4) for non-local-launch
Python/interactive documents; read the token (line 189); then follow the
notebook-view search, the interactive-window path, or fall straight through to
step 7 with the short-circuit connection. The cancellation token `c` is the
fresh `preferredSearchToken` created at clock 0; `thr` injects a rejection of
the awaited operation at the given tick. -/
def computePreferredBody (env : CPEnv) (c thr : Option Nat) : CPOut :=
  if !(isJupyterNotebookDoc env.notebookType) then
    { result := some .empty, effects := [], finalTick := 0, step7Tick := none }
  else
    let isPyOrIW := env.isPythonNotebook || env.resourceIsInteractive
    match (if env.notebookType = NbType.jupyterNotebook && !env.isLocalLaunch && isPyOrIW then
             match awaitTick thr 0 with
             | none => none
             | some t1 => some (env.defaultPythonControllerConn, t1)
           else some ((none : Option KernelConn), 0)) with
    | none => { result := none, effects := [], finalTick := 1, step7Tick := none }
    | some (pc0, t) =>
      if cancelledAt c t then
        { result := some .empty, effects := [], finalTick := t, step7Tick := none }
      else
        if env.notebookType = NbType.jupyterNotebook && pc0.isNone then
          match jupyterSearch env c thr t with
          | .inl out => out
          | .inr (conn, t2, effs) => step7And8 env c thr (some conn) t2 effs
        else if env.notebookType = NbType.interactiveWindow then
          match interactiveSearch env c thr t with
          | .inl out => out
          | .inr (pc, t2) => step7And8 env c thr pc t2 []
        else
          step7And8 env c thr pc0 t []

/-- Embedding of `ControllerPreferredService.computePreferred` including its
top-level try/catch (lines 358-360): an uncaught failure of the body is
logged and converted into the empty result; the effect log and clock are
returned alongside for the temporal statements. -/
def computePreferred (env : CPEnv) (c thr : Option Nat) :
    CPResult × List TimedEffect × Nat :=
  let out := computePreferredBody env c thr
  match out.result with
  | some r => (r, out.effects, out.finalTick)
  | none => (CPResult.empty, out.effects, out.finalTick)

/-- Tick at which the token check following the step-4 short-circuit (line
189) executes: 1 when the short-circuit's awaited default-controller
resolution ran, 0 otherwise. -/
def step4Tick (env : CPEnv) : Nat :=
  if env.notebookType = NbType.jupyterNotebook && !env.isLocalLaunch &&
     (env.isPythonNotebook || env.resourceIsInteractive) then 1 else 0

/-- Whether an effect is an affinity change or a stored document-to-controller
mapping — the side effects cancellation must suppress per the spec. -/
def isAffinityOrMapping (e : CPEffect) : Bool :=
  match e with
  | .affinityUpdate _ _ => true
  | .storeMapping _ => true
  | _ => false

/-- The top-ranked candidate of a non-empty ranked pool: its last element
(`rankedConnections[rankedConnections.length - 1]`). -/
def topRanked (x : KernelConn) (xs : List KernelConn) : KernelConn :=
  (x :: xs).getLast (by simp)

end ControllerPreferredService

/-! ## Theorems -/

namespace UniversalRemoteKernelFinder

/-- C10: `writeToCache` is not atomic on storage failure — it installs the new
candidate list in the in-memory cache before the durable-store update, so when
the durable update (or serialization) throws, the in-memory cache holds the
new values while the durable copy keeps the old ones, the error is swallowed,
and no change notification is fired for that write. -/
theorem writeToCache_C10 (env : FinderEnv) (values : List RemoteKernelMeta)
    (st : FinderState) (h : env.storeOk = false) :
    (writeToCache env values st).cache = values ∧
    (writeToCache env values st).store = st.store ∧
    (writeToCache env values st).events = st.events := by
  simp [writeToCache, h]

/-- Witness for C10 at a concrete input: a live-session candidate written over
a non-trivial previous store with a failed durable update. -/
theorem writeToCache_C10_witness :
    (⟨Except.ok [], fun _ => true, "1.0", false, false, false⟩ : FinderEnv).storeOk = false ∧
    ((writeToCache ⟨Except.ok [], fun _ => true, "1.0", false, false, false⟩
        [⟨RemoteKernelKind.connectToLiveRemoteKernel, "a", "s", "u"⟩]
        initialFinderState).cache
        = [⟨RemoteKernelKind.connectToLiveRemoteKernel, "a", "s", "u"⟩] ∧
     (writeToCache ⟨Except.ok [], fun _ => true, "1.0", false, false, false⟩
        [⟨RemoteKernelKind.connectToLiveRemoteKernel, "a", "s", "u"⟩]
        initialFinderState).store = initialFinderState.store ∧
     (writeToCache ⟨Except.ok [], fun _ => true, "1.0", false, false, false⟩
        [⟨RemoteKernelKind.connectToLiveRemoteKernel, "a", "s", "u"⟩]
        initialFinderState).events = initialFinderState.events) :=
  ⟨rfl, writeToCache_C10 _ _ _ rfl⟩

/-- C5 counterexample: at a concrete state holding a previous refresh's token
source, `updateCache` leaves the previous token NOT cancelled (refuting
"cancels and disposes the previous refresh's cancellation handle"), and its
first token-lifecycle event is the disposal of the old source — the dispose
happens before the new source is created and installed, refuting the claimed
replace-then-cancel-old ordering. -/
theorem updateCache_C5_counterexample :
    ((updateCache ⟨Except.ok [], fun _ => true, "1.0", true, false, false⟩
        { initialFinderState with current := some ⟨false, false⟩ }).retired.map
          TokenSource.cancelled = [false]) ∧
    ((updateCache ⟨Except.ok [], fun _ => true, "1.0", true, false, false⟩
        { initialFinderState with current := some ⟨false, false⟩ }).trace.take 1
      = [UpdEvent.disposedOld]) := by
  constructor <;> rfl

/-- C5 amended: every call to `updateCache` first disposes — without
cancelling — the previous refresh's cancellation handle, and only then creates
and installs the new one (dispose-old-then-replace ordering; the previous
token's cancelled flag is left untouched). -/
theorem updateCache_C5_amended (env : FinderEnv) (st : FinderState)
    (ts : TokenSource) (h : st.current = some ts) :
    (updateCache env st).retired = st.retired ++ [{ ts with disposed := true }] ∧
    ({ ts with disposed := true } : TokenSource).cancelled = ts.cancelled ∧
    (updateCache env st).trace
      = st.trace ++ [UpdEvent.disposedOld, UpdEvent.createdNew, UpdEvent.installedNew] ∧
    (updateCache env st).current
      = some { cancelled := env.cancelSignalled, disposed := false } := by
  rcases hf : env.fetch with l | l <;>
    simp [updateCache, hf, h, writeToCache, getFromCache] <;>
    split_ifs <;> simp

/-- Witness for the amended C5 at a concrete state with a previous handle. -/
theorem updateCache_C5_amended_witness :
    ({ initialFinderState with current := some ⟨false, false⟩ } : FinderState).current
      = some ⟨false, false⟩ ∧
    ((updateCache ⟨Except.ok [], fun _ => true, "1.0", true, false, false⟩
        { initialFinderState with current := some ⟨false, false⟩ }).retired
      = initialFinderState.retired ++ [{ cancelled := false, disposed := true }] ∧
     ({ cancelled := false, disposed := true } : TokenSource).cancelled = false ∧
     (updateCache ⟨Except.ok [], fun _ => true, "1.0", true, false, false⟩
        { initialFinderState with current := some ⟨false, false⟩ }).trace
      = initialFinderState.trace ++ [UpdEvent.disposedOld, UpdEvent.createdNew, UpdEvent.installedNew] ∧
     (updateCache ⟨Except.ok [], fun _ => true, "1.0", true, false, false⟩
        { initialFinderState with current := some ⟨false, false⟩ }).current
      = some { cancelled := false, disposed := false }) :=
  ⟨rfl, updateCache_C5_amended _ _ ⟨false, false⟩ rfl⟩

/-- C7 counterexample: a cache entry holding one remote kernel-spec candidate,
serialized by `writeToCache` and rehydrated by `getFromCache` in a fresh
finder with the SAME stored schema (extension) version, does not reproduce the
candidate list: the validation step drops the spec entry and yields the empty
list. -/
theorem getFromCache_C7_counterexample :
    (getFromCache ⟨Except.ok [], fun _ => true, "1.0", true, false, false⟩
        (freshFromStore
          (writeToCache ⟨Except.ok [], fun _ => true, "1.0", true, false, false⟩
            [⟨RemoteKernelKind.startUsingRemoteKernelSpec, "k1", "s", "u"⟩]
            initialFinderState))).1 = [] ∧
    ([] : List RemoteKernelMeta)
      ≠ [⟨RemoteKernelKind.startUsingRemoteKernelSpec, "k1", "s", "u"⟩] := by
  constructor
  · rfl
  · decide

/-- C7 amended: rehydrating a `writeToCache`-serialized entry through
`getFromCache` with a stored schema version equal to the running build's
version reproduces the candidate list up to the cache-validity rule — live
session candidates accepted by the validator are kept, kernel-spec candidates
are always dropped (`vals.filter (isValidCachedKernel validator)`); for every
stored entry whose version differs from the running build's version,
rehydration yields the empty list. -/
theorem getFromCache_C7_amended (env env2 : FinderEnv)
    (vals : List RemoteKernelMeta) (st : FinderState)
    (hs : env.storeOk = true) (hr : env.readFails = false)
    (hr2 : env2.readFails = false) :
    (getFromCache env (freshFromStore (writeToCache env vals st))).1
      = vals.filter (isValidCachedKernel env.validator) ∧
    (env2.extensionVersion ≠ env.extensionVersion →
      (getFromCache env2 (freshFromStore (writeToCache env vals st))).1 = []) := by
  constructor
  · simp [writeToCache, hs, freshFromStore, getFromCache, hr, initialFinderState]
    rw [show (deserializeKernelConnection ∘ serializeKernelConnection) = id from rfl,
      List.map_id]
  · intro hne
    simp [writeToCache, hs, freshFromStore, getFromCache, hr2, initialFinderState,
      serializeKernelConnection, deserializeKernelConnection, Ne.symm hne]

/-- Witness for the amended C7: one live-session and one spec candidate,
a validator accepting the session; same-version rehydration keeps exactly the
session, mismatched-version rehydration yields the empty list. -/
theorem getFromCache_C7_amended_witness :
    (⟨Except.ok [], fun _ => true, "1.0", true, false, false⟩ : FinderEnv).storeOk = true ∧
    (⟨Except.ok [], fun _ => true, "1.0", true, false, false⟩ : FinderEnv).readFails = false ∧
    (⟨Except.ok [], fun _ => true, "2.0", true, false, false⟩ : FinderEnv).readFails = false ∧
    ((getFromCache ⟨Except.ok [], fun _ => true, "1.0", true, false, false⟩
        (freshFromStore (writeToCache ⟨Except.ok [], fun _ => true, "1.0", true, false, false⟩
          [⟨RemoteKernelKind.connectToLiveRemoteKernel, "live", "s", "u"⟩,
           ⟨RemoteKernelKind.startUsingRemoteKernelSpec, "spec", "s", "u"⟩]
          initialFinderState))).1
      = [⟨RemoteKernelKind.connectToLiveRemoteKernel, "live", "s", "u"⟩,
         ⟨RemoteKernelKind.startUsingRemoteKernelSpec, "spec", "s", "u"⟩].filter
           (isValidCachedKernel fun _ => true) ∧
     ((⟨Except.ok [], fun _ => true, "2.0", true, false, false⟩ : FinderEnv).extensionVersion
        ≠ (⟨Except.ok [], fun _ => true, "1.0", true, false, false⟩ : FinderEnv).extensionVersion →
      (getFromCache ⟨Except.ok [], fun _ => true, "2.0", true, false, false⟩
        (freshFromStore (writeToCache ⟨Except.ok [], fun _ => true, "1.0", true, false, false⟩
          [⟨RemoteKernelKind.connectToLiveRemoteKernel, "live", "s", "u"⟩,
           ⟨RemoteKernelKind.startUsingRemoteKernelSpec, "spec", "s", "u"⟩]
          initialFinderState))).1 = [])) :=
  ⟨rfl, rfl, rfl, getFromCache_C7_amended _ _ _ _ rfl rfl rfl⟩

/-- Helper: on the initial state (empty in-memory cache, default memento) the
validated cache read yields the empty list. -/
theorem getFromCache_initial_fst (env : FinderEnv) :
    (getFromCache env initialFinderState).1 = [] := by
  simp only [getFromCache, initialFinderState]
  split_ifs <;> simp

/-- Helper: the candidate list returned by `getFromCache` depends only on the
in-memory cache and the store of the state it reads. -/
theorem getFromCache_fst_congr (env : FinderEnv) (st st' : FinderState)
    (hc : st'.cache = st.cache) (hs : st'.store = st.store) :
    (getFromCache env st').1 = (getFromCache env st).1 := by
  simp only [getFromCache, hc, hs]
  split_ifs <;> rfl

/-- Helper: `getFromCache` never changes the write counter, the durable store
or the notification counter (it may only install the rehydrated list in the
in-memory cache). -/
theorem getFromCache_snd_preserves (env : FinderEnv) (st : FinderState) :
    (getFromCache env st).2.writes = st.writes ∧
    (getFromCache env st).2.store = st.store ∧
    (getFromCache env st).2.events = st.events ∧
    (getFromCache env st).2.retired = st.retired ∧
    (getFromCache env st).2.trace = st.trace ∧
    (getFromCache env st).2.current = st.current := by
  simp only [getFromCache]
  split_ifs <;> simp

/-- C6: `loadCache` reads the persisted/in-memory cache; when the validated
cached list is non-empty it serves that list and kicks off a background
`updateCache`; when it is empty it performs exactly one synchronous live fetch
with no fallback, so after a first `loadCache` on an empty cache the cache
holds exactly the live-fetch result (empty on fetch failure), hence is
non-empty iff the live fetch succeeded and returned candidates. -/
theorem loadCache_C6 (env env2 : FinderEnv) (st2 : FinderState) :
    (loadCache env initialFinderState).bgKicked = false ∧
    (loadCache env initialFinderState).fetchCount = 1 ∧
    (loadCache env initialFinderState).state.cache
      = (match env.fetch with | Except.ok l => l | Except.error _ => []) ∧
    ((loadCache env initialFinderState).state.cache ≠ [] ↔
       ∃ l, env.fetch = Except.ok l ∧ l ≠ []) ∧
    ((getFromCache env2 st2).1 ≠ [] →
       (loadCache env2 st2).kernels = (getFromCache env2 st2).1 ∧
       (loadCache env2 st2).bgKicked = true ∧
       (loadCache env2 st2).fetchCount = 0 ∧
       (loadCache env2 st2).state.cache = (getFromCache env2 st2).1) := by
  have hempty := getFromCache_initial_fst env
  refine ⟨?_, ?_, ?_, ?_, ?_⟩
  · simp [loadCache, hempty]
  · simp [loadCache, hempty]
  · rcases hf : env.fetch with e | l <;> simp [loadCache, hempty, hf, writeToCache] <;>
      split_ifs <;> simp
  · rcases hf : env.fetch with e | l <;>
      simp [loadCache, hempty, hf, writeToCache] <;> split_ifs <;> simp
  · intro hne
    have : (getFromCache env2 st2).1.isEmpty = false := by
      simpa [List.isEmpty_iff] using hne
    refine ⟨?_, ?_, ?_, ?_⟩ <;>
      (simp [loadCache, this, writeToCache]
       try split_ifs <;> simp)

/-- Witness for C6: a successful fetch returning one candidate from the empty
initial state, and a non-empty cached state served directly. -/
theorem loadCache_C6_witness :
    ((loadCache ⟨Except.ok [⟨RemoteKernelKind.connectToLiveRemoteKernel, "a", "s", "u"⟩],
        fun _ => true, "1.0", true, false, false⟩ initialFinderState).bgKicked = false ∧
     (loadCache ⟨Except.ok [⟨RemoteKernelKind.connectToLiveRemoteKernel, "a", "s", "u"⟩],
        fun _ => true, "1.0", true, false, false⟩ initialFinderState).fetchCount = 1 ∧
     (loadCache ⟨Except.ok [⟨RemoteKernelKind.connectToLiveRemoteKernel, "a", "s", "u"⟩],
        fun _ => true, "1.0", true, false, false⟩ initialFinderState).state.cache
       = (match (Except.ok [⟨RemoteKernelKind.connectToLiveRemoteKernel, "a", "s", "u"⟩] :
             Except Unit (List RemoteKernelMeta)) with
          | Except.ok l => l | Except.error _ => []) ∧
     ((loadCache ⟨Except.ok [⟨RemoteKernelKind.connectToLiveRemoteKernel, "a", "s", "u"⟩],
        fun _ => true, "1.0", true, false, false⟩ initialFinderState).state.cache ≠ [] ↔
       ∃ l, (Except.ok [⟨RemoteKernelKind.connectToLiveRemoteKernel, "a", "s", "u"⟩] :
             Except Unit (List RemoteKernelMeta)) = Except.ok l ∧ l ≠ []) ∧
     ((getFromCache ⟨Except.ok [], fun _ => true, "1.0", true, false, false⟩
         { initialFinderState with
             cache := [⟨RemoteKernelKind.connectToLiveRemoteKernel, "b", "s", "u"⟩] }).1 ≠ [] →
       (loadCache ⟨Except.ok [], fun _ => true, "1.0", true, false, false⟩
         { initialFinderState with
             cache := [⟨RemoteKernelKind.connectToLiveRemoteKernel, "b", "s", "u"⟩] }).kernels
         = (getFromCache ⟨Except.ok [], fun _ => true, "1.0", true, false, false⟩
             { initialFinderState with
                 cache := [⟨RemoteKernelKind.connectToLiveRemoteKernel, "b", "s", "u"⟩] }).1 ∧
       (loadCache ⟨Except.ok [], fun _ => true, "1.0", true, false, false⟩
         { initialFinderState with
             cache := [⟨RemoteKernelKind.connectToLiveRemoteKernel, "b", "s", "u"⟩] }).bgKicked = true ∧
       (loadCache ⟨Except.ok [], fun _ => true, "1.0", true, false, false⟩
         { initialFinderState with
             cache := [⟨RemoteKernelKind.connectToLiveRemoteKernel, "b", "s", "u"⟩] }).fetchCount = 0 ∧
       (loadCache ⟨Except.ok [], fun _ => true, "1.0", true, false, false⟩
         { initialFinderState with
             cache := [⟨RemoteKernelKind.connectToLiveRemoteKernel, "b", "s", "u"⟩] }).state.cache
         = (getFromCache ⟨Except.ok [], fun _ => true, "1.0", true, false, false⟩
             { initialFinderState with
                 cache := [⟨RemoteKernelKind.connectToLiveRemoteKernel, "b", "s", "u"⟩] }).1)) :=
  loadCache_C6 _ _ _

/-- C2: when the live fetch inside `updateCache` fails, the refresh result is
the last validated cache filtered to only live-session
(`connectToLiveRemoteKernel`) candidates — cached kernel-spec candidates are
never part of the result; every successful or fallback result (token not
signalled) is written through to the cache (and, when the durable update
succeeds, fires the change notification); a refresh whose cancellation token
was signalled performs no cache write: the write counter, the durable store
and the notification counter are untouched. -/
theorem updateCache_C2 (env : FinderEnv) (st : FinderState) :
    (env.cancelSignalled = false → env.fetch = Except.error () →
       (updateCache env st).cache = (getFromCache env st).1.filter
          (fun k => match k.kind with
                    | RemoteKernelKind.connectToLiveRemoteKernel => true
                    | RemoteKernelKind.startUsingRemoteKernelSpec => false) ∧
       ∀ k ∈ (updateCache env st).cache,
         k.kind = RemoteKernelKind.connectToLiveRemoteKernel) ∧
    (env.cancelSignalled = false → ∀ l, env.fetch = Except.ok l →
       (updateCache env st).cache = l) ∧
    (env.cancelSignalled = false →
       (updateCache env st).writes = st.writes + 1 ∧
       (env.storeOk = true →
          (updateCache env st).events = st.events + 1 ∧
          (updateCache env st).store.kernels
            = (updateCache env st).cache.map serializeKernelConnection)) ∧
    (env.cancelSignalled = true →
       (updateCache env st).writes = st.writes ∧
       (updateCache env st).store = st.store ∧
       (updateCache env st).events = st.events) := by
  refine ⟨?_, ?_, ?_, ?_⟩
  · intro hcs hf
    constructor
    · simp [updateCache, hf, hcs, writeToCache]
      split_ifs <;>
        (dsimp only
         apply congrArg
         apply getFromCache_fst_congr
         all_goals rfl)
    · intro k hk
      simp [updateCache, hf, hcs, writeToCache] at hk
      split_ifs at hk <;>
        (dsimp only at hk
         have hp := List.of_mem_filter hk
         rcases k with ⟨kk, ki, ks, ku⟩
         cases kk <;> simp_all)
  · intro hcs l hf
    simp [updateCache, hf, hcs, writeToCache]
    split_ifs <;> rfl
  · intro hcs
    rcases hf : env.fetch with e | l <;>
      (simp [updateCache, hf, hcs, writeToCache]
       constructor
       · split_ifs <;> simp [(getFromCache_snd_preserves env _).1]
       · intro hso
         try split_ifs
         all_goals simp_all [(getFromCache_snd_preserves env _).2.2.1])
  · intro hcs
    rcases hf : env.fetch with e | l <;>
      simp [updateCache, hf, hcs, getFromCache_snd_preserves,
        (getFromCache_snd_preserves env _).1, (getFromCache_snd_preserves env _).2.1,
        (getFromCache_snd_preserves env _).2.2.1]

/-- Witness for C2: a failed fetch over a cache holding one live-session and
one kernel-spec candidate with an accepting validator (fallback keeps exactly
the session), plus a signalled refresh writing nothing. -/
theorem updateCache_C2_witness :
    ((updateCache ⟨Except.error (), fun _ => true, "1.0", true, false, false⟩
        { initialFinderState with
            cache := [⟨RemoteKernelKind.connectToLiveRemoteKernel, "live", "s", "u"⟩,
                      ⟨RemoteKernelKind.startUsingRemoteKernelSpec, "spec", "s", "u"⟩] }).cache
       = (getFromCache ⟨Except.error (), fun _ => true, "1.0", true, false, false⟩
           { initialFinderState with
               cache := [⟨RemoteKernelKind.connectToLiveRemoteKernel, "live", "s", "u"⟩,
                         ⟨RemoteKernelKind.startUsingRemoteKernelSpec, "spec", "s", "u"⟩] }).1.filter
           (fun k => match k.kind with
                     | RemoteKernelKind.connectToLiveRemoteKernel => true
                     | RemoteKernelKind.startUsingRemoteKernelSpec => false) ∧
     ∀ k ∈ (updateCache ⟨Except.error (), fun _ => true, "1.0", true, false, false⟩
        { initialFinderState with
            cache := [⟨RemoteKernelKind.connectToLiveRemoteKernel, "live", "s", "u"⟩,
                      ⟨RemoteKernelKind.startUsingRemoteKernelSpec, "spec", "s", "u"⟩] }).cache,
       k.kind = RemoteKernelKind.connectToLiveRemoteKernel) ∧
    ((updateCache ⟨Except.error (), fun _ => true, "1.0", true, false, true⟩
        initialFinderState).writes = initialFinderState.writes ∧
     (updateCache ⟨Except.error (), fun _ => true, "1.0", true, false, true⟩
        initialFinderState).store = initialFinderState.store ∧
     (updateCache ⟨Except.error (), fun _ => true, "1.0", true, false, true⟩
        initialFinderState).events = initialFinderState.events) :=
  ⟨(updateCache_C2 _ _).1 rfl rfl,
   (updateCache_C2 ⟨Except.error (), fun _ => true, "1.0", true, false, true⟩
      initialFinderState).2.2.2 rfl⟩

end UniversalRemoteKernelFinder

namespace KernelFinder

/-- Helper: the parallel readiness wait ends no earlier than its start and no
earlier than any registered finder's readiness time. -/
theorem readinessWaitEnd_ge (finders : List ContribFinder) (t0 : Nat) :
    t0 ≤ readinessWaitEnd finders t0 ∧
    ∀ f ∈ finders, f.readyAt ≤ readinessWaitEnd finders t0 := by
  induction finders generalizing t0 with
  | nil => simp [readinessWaitEnd]
  | cons g gs ih =>
    have h := ih (max t0 g.readyAt)
    refine ⟨le_trans (le_max_left _ _) h.1, ?_⟩
    intro f hf
    rcases List.mem_cons.mp hf with rfl | hmem
    · exact le_trans (le_max_right t0 f.readyAt) (by simpa [readinessWaitEnd] using h.1)
    · simpa [readinessWaitEnd] using h.2 f hmem

/-- C4: `listKernels` first waits for the readiness signal of every registered
finder in parallel (the wait ends at the latest readiness time, which is at or
after every finder's readiness): if the cancellation token is signalled after
that wait it returns the empty list; otherwise it returns the concatenation of
each finder's contributed kernels in registration order, with every candidate
stamped with the `{id, displayName}` of the finder that produced it — every
per-finder query happens at the post-wait time, never before that finder's
readiness completes. -/
theorem listKernels_C4 (finders : List ContribFinder) (t0 : Nat) (cancel : Bool) :
    (cancel = true → listKernels finders t0 cancel = []) ∧
    (cancel = false →
       listKernels finders t0 cancel =
         (finders.map (fun f =>
            (f.kernelsAt (readinessWaitEnd finders t0)).map (fun k =>
              { k with kernelFinderInfo := some ⟨f.id, f.displayName⟩ }))).flatten) ∧
    (∀ f ∈ finders, f.readyAt ≤ readinessWaitEnd finders t0) ∧
    t0 ≤ readinessWaitEnd finders t0 := by
  refine ⟨?_, ?_, (readinessWaitEnd_ge finders t0).2, (readinessWaitEnd_ge finders t0).1⟩
  · intro hc; simp [listKernels, hc]
  · intro hc
    simp only [listKernels, hc, Bool.false_eq_true, if_false, List.flatMap_def]

/-- Witness for C4: two finders with distinct readiness times and one
candidate each, queried uncancelled from time 0, plus the cancelled case. -/
theorem listKernels_C4_witness :
    (true = true →
      listKernels [⟨"f1", "Local", 3, fun _ => [⟨"a", none⟩]⟩,
                   ⟨"f2", "Remote", 7, fun _ => [⟨"b", none⟩]⟩] 0 true = []) ∧
    (true = false →
      listKernels [⟨"f1", "Local", 3, fun _ => [⟨"a", none⟩]⟩,
                   ⟨"f2", "Remote", 7, fun _ => [⟨"b", none⟩]⟩] 0 true =
        (([⟨"f1", "Local", 3, fun _ => [⟨"a", none⟩]⟩,
           ⟨"f2", "Remote", 7, fun _ => [⟨"b", none⟩]⟩] : List ContribFinder).map (fun f =>
           (f.kernelsAt (readinessWaitEnd
               [⟨"f1", "Local", 3, fun _ => [⟨"a", none⟩]⟩,
                ⟨"f2", "Remote", 7, fun _ => [⟨"b", none⟩]⟩] 0)).map (fun k =>
             { k with kernelFinderInfo := some ⟨f.id, f.displayName⟩ }))).flatten) ∧
    (∀ f ∈ [(⟨"f1", "Local", 3, fun _ => [⟨"a", none⟩]⟩ : ContribFinder),
            ⟨"f2", "Remote", 7, fun _ => [⟨"b", none⟩]⟩],
       f.readyAt ≤ readinessWaitEnd
         [⟨"f1", "Local", 3, fun _ => [⟨"a", none⟩]⟩,
          ⟨"f2", "Remote", 7, fun _ => [⟨"b", none⟩]⟩] 0) ∧
    0 ≤ readinessWaitEnd
         [⟨"f1", "Local", 3, fun _ => [⟨"a", none⟩]⟩,
          ⟨"f2", "Remote", 7, fun _ => [⟨"b", none⟩]⟩] 0 :=
  listKernels_C4 _ _ _

end KernelFinder

namespace ControllerPreferredService

/-- Helper: the telemetry bit-combination decodes exactly the subset of the
four conditions that held, and is the no-match value when none held. -/
theorem matchReason_bits (a b c d : Bool) :
    ((if a then PreferredKernelExactMatchReason.OnlyKernel else 0) |||
     (if b then PreferredKernelExactMatchReason.WasPreferredInterpreter else 0) |||
     (if c then PreferredKernelExactMatchReason.IsExactMatch else 0) |||
     (if d then PreferredKernelExactMatchReason.IsNonPythonKernelLanguageMatch else 0)).testBit 0 = a ∧
    ((if a then PreferredKernelExactMatchReason.OnlyKernel else 0) |||
     (if b then PreferredKernelExactMatchReason.WasPreferredInterpreter else 0) |||
     (if c then PreferredKernelExactMatchReason.IsExactMatch else 0) |||
     (if d then PreferredKernelExactMatchReason.IsNonPythonKernelLanguageMatch else 0)).testBit 1 = b ∧
    ((if a then PreferredKernelExactMatchReason.OnlyKernel else 0) |||
     (if b then PreferredKernelExactMatchReason.WasPreferredInterpreter else 0) |||
     (if c then PreferredKernelExactMatchReason.IsExactMatch else 0) |||
     (if d then PreferredKernelExactMatchReason.IsNonPythonKernelLanguageMatch else 0)).testBit 2 = c ∧
    ((if a then PreferredKernelExactMatchReason.OnlyKernel else 0) |||
     (if b then PreferredKernelExactMatchReason.WasPreferredInterpreter else 0) |||
     (if c then PreferredKernelExactMatchReason.IsExactMatch else 0) |||
     (if d then PreferredKernelExactMatchReason.IsNonPythonKernelLanguageMatch else 0)).testBit 3 = d ∧
    ((a || b || c || d) = false →
      ((if a then PreferredKernelExactMatchReason.OnlyKernel else 0) |||
       (if b then PreferredKernelExactMatchReason.WasPreferredInterpreter else 0) |||
       (if c then PreferredKernelExactMatchReason.IsExactMatch else 0) |||
       (if d then PreferredKernelExactMatchReason.IsNonPythonKernelLanguageMatch else 0))
        = PreferredKernelExactMatchReason.NoMatch) := by
  cases a <;> cases b <;> cases c <;> cases d <;> decide

/-- Helper: a boolean-guarded optional value is the value iff the guard holds,
and is absent when the guard fails. -/
theorem if_bool_some_iff {α : Type} (c : Bool) (v : α) :
    ((if c then some v else none) = some v ↔ c = true) ∧
    (c = false → (if c then some v else none) = none) := by
  cases c <;> simp

/-- C1: for every non-empty ranked candidate pool (and an unsignalled token),
`findPreferredKernelExactMatch` reports the top-ranked candidate — the last
element of the ranked list — as preferred iff at least one of the four
conditions holds (only connection, preferred interpreter, exact match,
non-Python language match); when none holds no preferred candidate is
reported; in every such call the subset of conditions that held is reported to
telemetry as a bit-combination defaulting to no-match; and for a pool of
exactly one candidate a preferred candidate is always reported. -/
theorem findPreferredKernelExactMatch_C1 (env : FPEnv) (x : KernelConn)
    (xs : List KernelConn) (t0 : Nat) :
    ∃ r reason,
      findPreferredKernelExactMatch env (some (x :: xs)) none none t0 =
        some (r, t0 + 3, [{ eff := CPEffect.telemetryMatch reason, tick := t0 + 3 }]) ∧
      r.rankedConnections = some (x :: xs) ∧
      (r.preferredConnection = some (topRanked x xs) ↔
        (((x :: xs).length == 1) ||
         env.matchesPreferredInterpreter (topRanked x xs) ||
         env.isExactMatch (topRanked x xs) ||
         isNonPythonLanguageMatchB env.languageInNotebookMetadata (topRanked x xs)) = true) ∧
      ((((x :: xs).length == 1) ||
        env.matchesPreferredInterpreter (topRanked x xs) ||
        env.isExactMatch (topRanked x xs) ||
        isNonPythonLanguageMatchB env.languageInNotebookMetadata (topRanked x xs)) = false →
        r.preferredConnection = none) ∧
      reason.testBit 0 = ((x :: xs).length == 1) ∧
      reason.testBit 1 = env.matchesPreferredInterpreter (topRanked x xs) ∧
      reason.testBit 2 = env.isExactMatch (topRanked x xs) ∧
      reason.testBit 3
        = isNonPythonLanguageMatchB env.languageInNotebookMetadata (topRanked x xs) ∧
      ((((x :: xs).length == 1) ||
        env.matchesPreferredInterpreter (topRanked x xs) ||
        env.isExactMatch (topRanked x xs) ||
        isNonPythonLanguageMatchB env.languageInNotebookMetadata (topRanked x xs)) = false →
        reason = PreferredKernelExactMatchReason.NoMatch) ∧
      (xs = [] → r.preferredConnection = some x) := by
  have hfp : findPreferredKernelExactMatch env (some (x :: xs)) none none t0 =
      some ({ rankedConnections := some (x :: xs)
            , preferredConnection :=
                if (((x :: xs).length == 1) ||
                    env.matchesPreferredInterpreter (topRanked x xs) ||
                    env.isExactMatch (topRanked x xs) ||
                    isNonPythonLanguageMatchB env.languageInNotebookMetadata (topRanked x xs))
                then some (topRanked x xs) else none },
            t0 + 3,
            [{ eff := CPEffect.telemetryMatch
                 ((if ((x :: xs).length == 1) then PreferredKernelExactMatchReason.OnlyKernel else 0) |||
                  (if env.matchesPreferredInterpreter (topRanked x xs) then PreferredKernelExactMatchReason.WasPreferredInterpreter else 0) |||
                  (if env.isExactMatch (topRanked x xs) then PreferredKernelExactMatchReason.IsExactMatch else 0) |||
                  (if isNonPythonLanguageMatchB env.languageInNotebookMetadata (topRanked x xs) then PreferredKernelExactMatchReason.IsNonPythonKernelLanguageMatch else 0))
             , tick := t0 + 3 }]) := rfl
  refine ⟨_, _, hfp, rfl, ?_, ?_, ?_, ?_, ?_, ?_, ?_, ?_⟩
  · exact (if_bool_some_iff _ _).1
  · exact (if_bool_some_iff _ _).2
  · exact (matchReason_bits _ _ _ _).1
  · exact (matchReason_bits _ _ _ _).2.1
  · exact (matchReason_bits _ _ _ _).2.2.1
  · exact (matchReason_bits _ _ _ _).2.2.2.1
  · exact (matchReason_bits _ _ _ _).2.2.2.2
  · intro hxs
    subst hxs
    simp [topRanked]

/-- Witness for C1: a singleton pool with no matching policies — the
only-connection condition alone makes the candidate preferred. -/
theorem findPreferredKernelExactMatch_C1_witness :
    ∃ r reason,
      findPreferredKernelExactMatch ⟨fun _ => false, fun _ => false, some "R"⟩
          (some [⟨"k1", some "python"⟩]) none none 0 =
        some (r, 3, [{ eff := CPEffect.telemetryMatch reason, tick := 3 }]) ∧
      r.preferredConnection = some ⟨"k1", some "python"⟩ := by
  obtain ⟨r, reason, h1, -, -, -, -, -, -, -, -, h10⟩ :=
    findPreferredKernelExactMatch_C1 ⟨fun _ => false, fun _ => false, some "R"⟩
      ⟨"k1", some "python"⟩ [] 0
  exact ⟨r, reason, by simpa using h1, h10 rfl⟩

/-- C8: for every input where the notebook metadata declares a (truthy)
language `l` other than the distinguished Python language and the top-ranked
of two candidates is the one whose kernel language equals that declared
language, that candidate is reported preferred via the non-Python language
match condition, even when the exact-match policy rejects it. -/
theorem findPreferredKernelExactMatch_C8 (env : FPEnv) (a b : KernelConn)
    (l : String) (t0 : Nat)
    (hlang : env.languageInNotebookMetadata = some l)
    (hne : l ≠ "")
    (hnp : l ≠ PYTHON_LANGUAGE)
    (hb : b.language = some l)
    (_hem : env.isExactMatch b = false) :
    ∃ r t e,
      findPreferredKernelExactMatch env (some [a, b]) none none t0 = some (r, t, e) ∧
      r.preferredConnection = some b := by
  obtain ⟨r, reason, h1, -, hiff, -, -, -, -, -, -, -⟩ :=
    findPreferredKernelExactMatch_C1 env a [b] t0
  refine ⟨r, t0 + 3, _, h1, ?_⟩
  have htop : topRanked a [b] = b := rfl
  apply hiff.mpr
  simp [htop, isNonPythonLanguageMatchB, hlang, hb]
  exact Or.inr ⟨hne, hnp⟩

/-- Witness for C8, at the claim's concrete instance: metadata declares "R"
(truthy and distinct from Python), candidates are a Python kernel and an R
kernel ranked on top — exactly one candidate's language is "R" — and the
exact-match policy rejects everything. -/
theorem findPreferredKernelExactMatch_C8_witness :
    (⟨fun _ => false, fun _ => false, some "R"⟩ : FPEnv).languageInNotebookMetadata = some "R" ∧
    "R" ≠ "" ∧
    "R" ≠ PYTHON_LANGUAGE ∧
    (⟨"kR", some "R"⟩ : KernelConn).language = some "R" ∧
    (⟨"kPy", some "python"⟩ : KernelConn).language ≠ some "R" ∧
    (⟨fun _ => false, fun _ => false, some "R"⟩ : FPEnv).isExactMatch ⟨"kR", some "R"⟩ = false ∧
    ∃ r t e,
      findPreferredKernelExactMatch ⟨fun _ => false, fun _ => false, some "R"⟩
          (some [⟨"kPy", some "python"⟩, ⟨"kR", some "R"⟩]) none none 0 = some (r, t, e) ∧
      r.preferredConnection = some ⟨"kR", some "R"⟩ :=
  ⟨rfl, by decide, by decide, rfl, by decide, rfl,
   findPreferredKernelExactMatch_C8 ⟨fun _ => false, fun _ => false, some "R"⟩
     ⟨"kPy", some "python"⟩ ⟨"kR", some "R"⟩ "R" 0 rfl (by decide) (by decide) rfl rfl⟩

/-- C9: an unexpected failure raised anywhere inside the preferred-selection
computation (the body leaving with an uncaught rejection) is caught by the
top-level try/catch and converted into the empty result — no preferred
connection, no controller — and never propagates; likewise a failure at the
top of the cache read (`getFromCache`) is caught and converted to an empty
result. -/
theorem computePreferred_C9 (env : CPEnv) (c thr : Option Nat)
    (fenv : FinderEnv) (st : FinderState)
    (hbody : (computePreferredBody env c thr).result = none)
    (hread : fenv.readFails = true) :
    (computePreferred env c thr).1 = CPResult.empty ∧
    (UniversalRemoteKernelFinder.getFromCache fenv st).1 = [] := by
  constructor
  · simp [computePreferred, hbody]
  · simp [UniversalRemoteKernelFinder.getFromCache, hread]

/-- Witness for C9: an interactive-window run whose awaited controller-loader
promise rejects at the first suspension point, and a cache read whose body
throws. -/
theorem computePreferred_C9_witness :
    (computePreferredBody
        ⟨NbType.interactiveWindow, true, false, false, none, none, false, none,
         fun _ _ => false, fun _ => false, none, none, none, [], fun _ _ => none,
         none, none⟩ none (some 1)).result = none ∧
    (⟨Except.ok [], fun _ => true, "1.0", true, true, false⟩ : FinderEnv).readFails = true ∧
    ((computePreferred
        ⟨NbType.interactiveWindow, true, false, false, none, none, false, none,
         fun _ _ => false, fun _ => false, none, none, none, [], fun _ _ => none,
         none, none⟩ none (some 1)).1 = CPResult.empty ∧
     (UniversalRemoteKernelFinder.getFromCache
        ⟨Except.ok [], fun _ => true, "1.0", true, true, false⟩ initialFinderState).1 = []) :=
  ⟨rfl, rfl,
   computePreferred_C9 _ none (some 1) _ initialFinderState rfl rfl⟩

/-- Helper: behaviour of `findPreferredKernelExactMatch` under a token that
flips to cancelled at tick `n` (with no injected failure): the call always
completes within three ticks, emits only telemetry effects stamped with its
final tick, returns the all-`undefined` result with no effects whenever the
token flipped at or before its final tick, and behaves exactly like the
uncancelled run when it finished strictly before the flip. -/
theorem fp_main (env : FPEnv) (ranked : Option (List KernelConn)) (n t0 : Nat)
    (hlt : t0 < n) :
    ∃ res t1 effs,
      findPreferredKernelExactMatch env ranked (some n) none t0 = some (res, t1, effs) ∧
      t0 < t1 ∧ t1 ≤ t0 + 3 ∧
      (∀ e ∈ effs, e.tick = t1 ∧ isAffinityOrMapping e.eff = false) ∧
      (n ≤ t1 → res = { rankedConnections := none, preferredConnection := none } ∧ effs = []) ∧
      (t1 < n → findPreferredKernelExactMatch env ranked none none t0 = some (res, t1, effs)) := by
  by_cases h1 : n ≤ t0 + 1
  · refine ⟨{ rankedConnections := none, preferredConnection := none }, t0 + 1, [],
      ?_, by omega, by omega, by simp, fun _ => ⟨rfl, rfl⟩, fun h => absurd h1 (by omega)⟩
    simp [findPreferredKernelExactMatch, awaitTick, cancelledAt, h1]
  · rcases ranked with _ | (_ | ⟨x, xs⟩)
    · refine ⟨{ rankedConnections := none, preferredConnection := none }, t0 + 1, [],
        ?_, by omega, by omega, by simp, fun h => absurd h h1, ?_⟩
      · simp [findPreferredKernelExactMatch, awaitTick, cancelledAt, h1]
      · intro _
        simp [findPreferredKernelExactMatch, awaitTick, cancelledAt]
    · refine ⟨{ rankedConnections := some [], preferredConnection := none }, t0 + 1, [],
        ?_, by omega, by omega, by simp, fun h => absurd h h1, ?_⟩
      · simp [findPreferredKernelExactMatch, awaitTick, cancelledAt, h1]
      · intro _
        simp [findPreferredKernelExactMatch, awaitTick, cancelledAt]
    · by_cases h2 : n ≤ t0 + 2
      · refine ⟨{ rankedConnections := none, preferredConnection := none }, t0 + 2, [],
          ?_, by omega, by omega, by simp, fun _ => ⟨rfl, rfl⟩, fun h => absurd h2 (by omega)⟩
        simp [findPreferredKernelExactMatch, awaitTick, cancelledAt, h1, h2]
      · by_cases h3 : n ≤ t0 + 3
        · refine ⟨{ rankedConnections := none, preferredConnection := none }, t0 + 3, [],
            ?_, by omega, by omega, by simp, fun _ => ⟨rfl, rfl⟩, fun h => absurd h3 (by omega)⟩
          simp [findPreferredKernelExactMatch, awaitTick, cancelledAt, h1, h2, h3]
        · refine ⟨{ rankedConnections := some (x :: xs)
                  , preferredConnection :=
                      if (((x :: xs).length == 1) ||
                          env.matchesPreferredInterpreter (topRanked x xs) ||
                          env.isExactMatch (topRanked x xs) ||
                          isNonPythonLanguageMatchB env.languageInNotebookMetadata (topRanked x xs))
                      then some (topRanked x xs) else none },
              t0 + 3,
              [{ eff := CPEffect.telemetryMatch
                   ((if ((x :: xs).length == 1) then PreferredKernelExactMatchReason.OnlyKernel else 0) |||
                    (if env.matchesPreferredInterpreter (topRanked x xs) then PreferredKernelExactMatchReason.WasPreferredInterpreter else 0) |||
                    (if env.isExactMatch (topRanked x xs) then PreferredKernelExactMatchReason.IsExactMatch else 0) |||
                    (if isNonPythonLanguageMatchB env.languageInNotebookMetadata (topRanked x xs) then PreferredKernelExactMatchReason.IsNonPythonKernelLanguageMatch else 0))
               , tick := t0 + 3 }],
              ?_, by omega, by omega, ?_, fun h => absurd h h3, fun _ => rfl⟩
          · simp [findPreferredKernelExactMatch, awaitTick, cancelledAt, h1, h2, h3, topRanked]
          · intro e he
            simp only [List.mem_singleton] at he
            subst he
            exact ⟨rfl, rfl⟩

/-- Helper: every early return of the notebook-view search segment happens
before the final candidate resolution — its step-7 tick is unset. -/
theorem jupyterSearch_inl_step7 (env : CPEnv) (c thr : Option Nat) (t0 : Nat)
    (out : CPOut) (h : jupyterSearch env c thr t0 = Sum.inl out) :
    out.step7Tick = none := by
  simp only [jupyterSearch] at h
  repeat' split at h
  all_goals first
    | (injection h with h; subst h; rfl)
    | injection h

/-- Helper: every early return of the interactive-window segment happens
before the final candidate resolution — its step-7 tick is unset. -/
theorem interactiveSearch_inl_step7 (env : CPEnv) (c thr : Option Nat) (t0 : Nat)
    (out : CPOut) (h : interactiveSearch env c thr t0 = Sum.inl out) :
    out.step7Tick = none := by
  simp only [interactiveSearch] at h
  repeat' split at h
  all_goals first
    | (injection h with h; subst h; rfl)
    | injection h

/-- Helper: steps 7-8 always record the tick at which the final candidate
resolution against the live registry executed: the tick they were entered
at. -/
theorem step7And8_step7Tick (env : CPEnv) (c thr : Option Nat)
    (pc : Option KernelConn) (t : Nat) (effs : List TimedEffect) :
    (step7And8 env c thr pc t effs).step7Tick = some t := by
  simp only [step7And8]
  repeat' split
  all_goals rfl

/-- Helper: the uncancelled, failure-free interactive-window segment reaches
the hand-off to step 7 after exactly two ticks. -/
theorem interactiveSearch_clean (env : CPEnv) (t0 : Nat) :
    interactiveSearch env none none t0 =
      Sum.inr (env.defaultInteractiveControllerConn, t0 + 2) := rfl

/-- Helper: the interactive-window segment under a token flipping at tick `n`:
a flip at or before its last tick aborts with the empty result and no effects;
a later flip leaves the clean hand-off. -/
theorem interactiveSearch_cancel (env : CPEnv) (n t0 : Nat) (h0 : t0 < n) :
    (n ≤ t0 + 2 →
       interactiveSearch env (some n) none t0 =
         Sum.inl { result := some CPResult.empty, effects := [], finalTick := n
                 , step7Tick := none }) ∧
    (t0 + 2 < n →
       interactiveSearch env (some n) none t0 =
         Sum.inr (env.defaultInteractiveControllerConn, t0 + 2)) := by
  constructor
  · intro h
    by_cases h1 : n ≤ t0 + 1
    · have hn : n = t0 + 1 := by omega
      subst hn
      simp [interactiveSearch, awaitTick, cancelledAt]
    · have hn : n = t0 + 2 := by omega
      subst hn
      simp [interactiveSearch, awaitTick, cancelledAt, h1]
  · intro h
    have h1 : ¬ n ≤ t0 + 1 := by omega
    have h2 : ¬ n ≤ t0 + 2 := by omega
    simp [interactiveSearch, awaitTick, cancelledAt, h1, h2]


/-- Helper: the notebook-view search segment under a token flipping at tick
`n > t0`: either it returns early with the empty result, an unset step-7 tick,
and only pre-flip non-affinity effects, or it hands off to step 7 strictly
before the flip with only pre-flip non-affinity effects, behaving exactly like
the uncancelled run. -/
theorem jupyterSearch_cancel (env : CPEnv) (n t0 : Nat) (h0 : t0 < n) :
    (∃ out, jupyterSearch env (some n) none t0 = Sum.inl out ∧
       out.result = some CPResult.empty ∧ out.step7Tick = none ∧
       ∀ e ∈ out.effects, e.tick < n ∧ isAffinityOrMapping e.eff = false) ∨
    (∃ conn t2 effs, jupyterSearch env (some n) none t0 = Sum.inr (conn, t2, effs) ∧
       t2 < n ∧ (∀ e ∈ effs, e.tick < n ∧ isAffinityOrMapping e.eff = false) ∧
       jupyterSearch env none none t0 = Sum.inr (conn, t2, effs)) := by
  by_cases hi : (env.serverId.isNone &&
      (env.isPythonNotebook || env.resourceIsInteractive) &&
      env.pythonExtensionInstalled) = true
  case pos =>
    by_cases hcA : n ≤ t0 + 1
    · left
      refine ⟨{ result := some CPResult.empty, effects := [], finalTick := t0 + 1
              , step7Tick := none }, ?_, rfl, rfl, by simp⟩
      simp [jupyterSearch, awaitTick, cancelledAt, hi, hcA]
    · obtain ⟨res1, t2, e1, hfp1, hlt1, hle1, heff1, hcanc1, hclean1⟩ :=
        fp_main ⟨env.matchesInterpreter env.activeInterpreter, env.isExactMatch,
          env.languageInNotebookMetadata⟩ env.ranked1 n (t0 + 1) (by omega)
      by_cases hc2 : n ≤ t2
      · left
        obtain ⟨hres1, he1⟩ := hcanc1 hc2
        refine ⟨{ result := some CPResult.empty, effects := e1, finalTick := t2
                , step7Tick := none }, ?_, rfl, rfl, by simp [he1]⟩
        simp [jupyterSearch, awaitTick, cancelledAt, hi, hcA, hfp1, hc2]
      · have hclean1' := hclean1 (by omega)
        by_cases hp1 : res1.preferredConnection.isNone = true
        · obtain ⟨res2, t3, e2, hfp2, hlt2, hle2, heff2, hcanc2, hclean2⟩ :=
            fp_main ⟨env.matchesInterpreter env.activeInterpreter, env.isExactMatch,
              env.languageInNotebookMetadata⟩ env.ranked2 n t2 (by omega)
          by_cases hc3 : n ≤ t3
          · left
            obtain ⟨hres2, he2⟩ := hcanc2 hc3
            refine ⟨{ result := some CPResult.empty, effects := e1 ++ e2, finalTick := t3
                    , step7Tick := none }, ?_, rfl, rfl, ?_⟩
            · simp [jupyterSearch, awaitTick, cancelledAt, hi, hcA, hfp1, hc2, hp1,
                hfp2, hc3]
            · intro e he
              rw [he2] at he
              simp only [List.append_nil] at he
              exact ⟨by rw [(heff1 e he).1]; omega, (heff1 e he).2⟩
          · have hclean2' := hclean2 (by omega)
            have heffs : ∀ e ∈ e1 ++ e2 ++
                [{ eff := CPEffect.telemetryPreferred res2.preferredConnection.isSome
                 , tick := t3 }],
                e.tick < n ∧ isAffinityOrMapping e.eff = false := by
              intro e he
              rcases List.mem_append.mp he with he' | he'
              · rcases List.mem_append.mp he' with h1 | h2
                · exact ⟨by rw [(heff1 e h1).1]; omega, (heff1 e h1).2⟩
                · exact ⟨by rw [(heff2 e h2).1]; omega, (heff2 e h2).2⟩
              · simp only [List.mem_singleton] at he'
                subst he'
                refine ⟨?_, rfl⟩
                show t3 < n
                omega
            rcases hpc : res2.preferredConnection with _ | conn
            · left
              refine ⟨{ result := some CPResult.empty
                      , effects := e1 ++ e2 ++
                          [{ eff := CPEffect.telemetryPreferred res2.preferredConnection.isSome
                           , tick := t3 }]
                      , finalTick := t3, step7Tick := none }, ?_, rfl, rfl, heffs⟩
              simp [jupyterSearch, awaitTick, cancelledAt, hi, hcA, hfp1, hc2, hp1,
                hfp2, hc3, hpc]
            · right
              refine ⟨conn, t3,
                (if env.registeredIds.contains conn.id then
                   e1 ++ e2 ++ [{ eff := CPEffect.telemetryPreferred res2.preferredConnection.isSome
                                , tick := t3 }]
                 else
                   e1 ++ e2 ++ [{ eff := CPEffect.telemetryPreferred res2.preferredConnection.isSome
                                , tick := t3 }] ++
                     [{ eff := CPEffect.earlyRegister conn.id, tick := t3 }]),
                ?_, by omega, ?_, ?_⟩
              · simp [jupyterSearch, awaitTick, cancelledAt, hi, hcA, hfp1, hc2, hp1,
                  hfp2, hc3, hpc]
              · intro e he
                by_cases hreg : env.registeredIds.contains conn.id = true
                · rw [if_pos hreg] at he
                  exact heffs e he
                · rw [if_neg hreg] at he
                  rcases List.mem_append.mp he with he' | he'
                  · exact heffs e he'
                  · simp only [List.mem_singleton] at he'
                    subst he'
                    refine ⟨?_, rfl⟩
                    show t3 < n
                    omega
              · simp [jupyterSearch, awaitTick, cancelledAt, hi, hclean1', hp1,
                  hclean2', hpc]
        · rcases hpc : res1.preferredConnection with _ | conn
          · exact absurd (by simp [hpc]) hp1
          · have heffs : ∀ e ∈ e1 ++ ([] : List TimedEffect) ++
                [{ eff := CPEffect.telemetryPreferred res1.preferredConnection.isSome
                 , tick := t2 }],
                e.tick < n ∧ isAffinityOrMapping e.eff = false := by
              intro e he
              rcases List.mem_append.mp he with he' | he'
              · rcases List.mem_append.mp he' with h1 | h2
                · exact ⟨by rw [(heff1 e h1).1]; omega, (heff1 e h1).2⟩
                · exact absurd h2 (List.not_mem_nil e)
              · simp only [List.mem_singleton] at he'
                subst he'
                refine ⟨?_, rfl⟩
                show t2 < n
                omega
            right
            refine ⟨conn, t2,
              (if env.registeredIds.contains conn.id then
                 e1 ++ ([] : List TimedEffect) ++
                   [{ eff := CPEffect.telemetryPreferred res1.preferredConnection.isSome
                    , tick := t2 }]
               else
                 e1 ++ ([] : List TimedEffect) ++
                   [{ eff := CPEffect.telemetryPreferred res1.preferredConnection.isSome
                    , tick := t2 }] ++
                   [{ eff := CPEffect.earlyRegister conn.id, tick := t2 }]),
              ?_, by omega, ?_, ?_⟩
            · simp [jupyterSearch, awaitTick, cancelledAt, hi, hcA, hfp1, hc2, hp1, hpc]
            · intro e he
              by_cases hreg : env.registeredIds.contains conn.id = true
              · rw [if_pos hreg] at he
                exact heffs e he
              · rw [if_neg hreg] at he
                rcases List.mem_append.mp he with he' | he'
                · exact heffs e he'
                · simp only [List.mem_singleton] at he'
                  subst he'
                  refine ⟨?_, rfl⟩
                  show t2 < n
                  omega
            · simp [jupyterSearch, awaitTick, cancelledAt, hi, hclean1', hp1, hpc]
  case neg =>
    obtain ⟨res1, t2, e1, hfp1, hlt1, hle1, heff1, hcanc1, hclean1⟩ :=
      fp_main ⟨env.matchesInterpreter none, env.isExactMatch,
        env.languageInNotebookMetadata⟩ env.ranked1 n t0 h0
    by_cases hc2 : n ≤ t2
    · left
      obtain ⟨hres1, he1⟩ := hcanc1 hc2
      refine ⟨{ result := some CPResult.empty, effects := e1, finalTick := t2
              , step7Tick := none }, ?_, rfl, rfl, by simp [he1]⟩
      simp [jupyterSearch, awaitTick, cancelledAt, hi, h0, hfp1, hc2]
    · have hclean1' := hclean1 (by omega)
      by_cases hp1 : res1.preferredConnection.isNone = true
      · obtain ⟨res2, t3, e2, hfp2, hlt2, hle2, heff2, hcanc2, hclean2⟩ :=
          fp_main ⟨env.matchesInterpreter none, env.isExactMatch,
            env.languageInNotebookMetadata⟩ env.ranked2 n t2 (by omega)
        by_cases hc3 : n ≤ t3
        · left
          obtain ⟨hres2, he2⟩ := hcanc2 hc3
          refine ⟨{ result := some CPResult.empty, effects := e1 ++ e2, finalTick := t3
                  , step7Tick := none }, ?_, rfl, rfl, ?_⟩
          · simp [jupyterSearch, awaitTick, cancelledAt, hi, h0, hfp1, hc2, hp1,
              hfp2, hc3]
          · intro e he
            rw [he2] at he
            simp only [List.append_nil] at he
            exact ⟨by rw [(heff1 e he).1]; omega, (heff1 e he).2⟩
        · have hclean2' := hclean2 (by omega)
          have heffs : ∀ e ∈ e1 ++ e2 ++
              [{ eff := CPEffect.telemetryPreferred res2.preferredConnection.isSome
               , tick := t3 }],
              e.tick < n ∧ isAffinityOrMapping e.eff = false := by
            intro e he
            rcases List.mem_append.mp he with he' | he'
            · rcases List.mem_append.mp he' with h1 | h2
              · exact ⟨by rw [(heff1 e h1).1]; omega, (heff1 e h1).2⟩
              · exact ⟨by rw [(heff2 e h2).1]; omega, (heff2 e h2).2⟩
            · simp only [List.mem_singleton] at he'
              subst he'
              refine ⟨?_, rfl⟩
              show t3 < n
              omega
          rcases hpc : res2.preferredConnection with _ | conn
          · left
            refine ⟨{ result := some CPResult.empty
                    , effects := e1 ++ e2 ++
                        [{ eff := CPEffect.telemetryPreferred res2.preferredConnection.isSome
                         , tick := t3 }]
                    , finalTick := t3, step7Tick := none }, ?_, rfl, rfl, heffs⟩
            simp [jupyterSearch, awaitTick, cancelledAt, hi, h0, hfp1, hc2, hp1,
              hfp2, hc3, hpc]
          · right
            refine ⟨conn, t3,
              (if env.registeredIds.contains conn.id then
                 e1 ++ e2 ++ [{ eff := CPEffect.telemetryPreferred res2.preferredConnection.isSome
                              , tick := t3 }]
               else
                 e1 ++ e2 ++ [{ eff := CPEffect.telemetryPreferred res2.preferredConnection.isSome
                              , tick := t3 }] ++
                   [{ eff := CPEffect.earlyRegister conn.id, tick := t3 }]),
              ?_, by omega, ?_, ?_⟩
            · simp [jupyterSearch, awaitTick, cancelledAt, hi, h0, hfp1, hc2, hp1,
                hfp2, hc3, hpc]
            · intro e he
              by_cases hreg : env.registeredIds.contains conn.id = true
              · rw [if_pos hreg] at he
                exact heffs e he
              · rw [if_neg hreg] at he
                rcases List.mem_append.mp he with he' | he'
                · exact heffs e he'
                · simp only [List.mem_singleton] at he'
                  subst he'
                  refine ⟨?_, rfl⟩
                  show t3 < n
                  omega
            · simp [jupyterSearch, awaitTick, cancelledAt, hi, hclean1', hp1,
                hclean2', hpc]
      · rcases hpc : res1.preferredConnection with _ | conn
        · exact absurd (by simp [hpc]) hp1
        · have heffs : ∀ e ∈ e1 ++ ([] : List TimedEffect) ++
              [{ eff := CPEffect.telemetryPreferred res1.preferredConnection.isSome
               , tick := t2 }],
              e.tick < n ∧ isAffinityOrMapping e.eff = false := by
            intro e he
            rcases List.mem_append.mp he with he' | he'
            · rcases List.mem_append.mp he' with h1 | h2
              · exact ⟨by rw [(heff1 e h1).1]; omega, (heff1 e h1).2⟩
              · exact absurd h2 (List.not_mem_nil e)
            · simp only [List.mem_singleton] at he'
              subst he'
              refine ⟨?_, rfl⟩
              show t2 < n
              omega
          right
          refine ⟨conn, t2,
            (if env.registeredIds.contains conn.id then
               e1 ++ ([] : List TimedEffect) ++
                 [{ eff := CPEffect.telemetryPreferred res1.preferredConnection.isSome
                  , tick := t2 }]
             else
               e1 ++ ([] : List TimedEffect) ++
                 [{ eff := CPEffect.telemetryPreferred res1.preferredConnection.isSome
                  , tick := t2 }] ++
                 [{ eff := CPEffect.earlyRegister conn.id, tick := t2 }]),
            ?_, by omega, ?_, ?_⟩
          · simp [jupyterSearch, awaitTick, cancelledAt, hi, h0, hfp1, hc2, hp1, hpc]
          · intro e he
            by_cases hreg : env.registeredIds.contains conn.id = true
            · rw [if_pos hreg] at he
              exact heffs e he
            · rw [if_neg hreg] at he
              rcases List.mem_append.mp he with he' | he'
              · exact heffs e he'
              · simp only [List.mem_singleton] at he'
                subst he'
                refine ⟨?_, rfl⟩
                show t2 < n
                omega
          · simp [jupyterSearch, awaitTick, cancelledAt, hi, hclean1', hp1, hpc]

/-- Helper: steps 7-8 entered before the flip tick `n` with only pre-flip
effects: whenever the token flips by their final tick, they return the empty
result and every logged effect (including the affinity updates, which execute
within the entry scheduling slot) predates the flip — the mapping store is
suppressed. -/
theorem step7And8_cancel (env : CPEnv) (n : Nat) (pc : Option KernelConn)
    (t : Nat) (effs : List TimedEffect) (ht : t < n)
    (he : ∀ e ∈ effs, e.tick < n)
    (hfin : n ≤ (step7And8 env (some n) none pc t effs).finalTick) :
    (step7And8 env (some n) none pc t effs).result = some CPResult.empty ∧
    ∀ e ∈ (step7And8 env (some n) none pc t effs).effects, e.tick < n := by
  have hnt : ¬ n ≤ t := by omega
  rcases hg : (match pc with
      | some conn => env.registrationGet conn env.notebookType
      | none => none) with _ | ctrl
  · exfalso
    simp [step7And8, hg] at hfin
    omega
  · by_cases h2 : n ≤ t + 1
    · have heq : step7And8 env (some n) none pc t effs =
          { result := some CPResult.empty
          , effects := effs ++ ((match env.previousPreferredController with
              | some prev => [{ eff := CPEffect.affinityUpdate prev Affinity.Default, tick := t }]
              | none => []) ++
              [{ eff := CPEffect.affinityUpdate ctrl Affinity.Preferred, tick := t }])
          , finalTick := t + 1, step7Tick := some t } := by
        simp [step7And8, hg, cancelledAt, awaitTick, hnt, h2]
      rw [heq]
      refine ⟨rfl, ?_⟩
      intro e hee
      rcases List.mem_append.mp hee with h' | h'
      · exact he e h'
      · rcases hprev : env.previousPreferredController with _ | prev
        · rw [hprev] at h'
          simp only [List.nil_append, List.mem_singleton] at h'
          subst h'
          show t < n
          omega
        · rw [hprev] at h'
          simp only [List.cons_append, List.nil_append, List.mem_cons,
            List.not_mem_nil, or_false] at h'
          rcases h' with h' | h' <;>
            (subst h'; show t < n; omega)
    · exfalso
      simp [step7And8, hg, cancelledAt, awaitTick, hnt, h2] at hfin

/-- Helper (general cancellation discipline of `computePreferred`): for every
environment and every token that flips at tick `n ≥ 1`, if the flip lands
within the run (at or before its final tick) then the body returns the empty
result and every side effect it performed predates the flip — the computation
aborts with no side effects from the moment the token is signalled. -/
theorem cp_general (env : CPEnv) (n : Nat) (hn : 1 ≤ n)
    (h : n ≤ (computePreferredBody env (some n) none).finalTick) :
    (computePreferredBody env (some n) none).result = some CPResult.empty ∧
    ∀ e ∈ (computePreferredBody env (some n) none).effects, e.tick < n := by
  have h0 : ¬ n ≤ 0 := by omega
  rcases hty : env.notebookType with _ | _ | _
  case jupyterNotebook =>
    by_cases h4 : (!env.isLocalLaunch && (env.isPythonNotebook || env.resourceIsInteractive)) = true
    · by_cases hcA : n ≤ 1
      · have heq : computePreferredBody env (some n) none =
            { result := some CPResult.empty, effects := [], finalTick := 1, step7Tick := none } := by
          simp [computePreferredBody, isJupyterNotebookDoc, hty, awaitTick, cancelledAt, h4, hcA]
        rw [heq]
        exact ⟨rfl, by simp⟩
      · by_cases hpc0 : env.defaultPythonControllerConn.isNone = true
        · rcases jupyterSearch_cancel env n 1 (by omega) with
            ⟨out, hjs, hres, hstep, heffs⟩ | ⟨conn, t2, effs, hjs, ht2, heffs, hclean⟩
          · have heq : computePreferredBody env (some n) none = out := by
              simp [computePreferredBody, isJupyterNotebookDoc, hty, awaitTick, cancelledAt,
                h4, hcA, hpc0, hjs]
            rw [heq]
            exact ⟨hres, fun e he' => (heffs e he').1⟩
          · have heq : computePreferredBody env (some n) none =
                step7And8 env (some n) none (some conn) t2 effs := by
              simp [computePreferredBody, isJupyterNotebookDoc, hty, awaitTick, cancelledAt,
                h4, hcA, hpc0, hjs]
            rw [heq] at h ⊢
            exact step7And8_cancel env n (some conn) t2 effs ht2
              (fun e he' => (heffs e he').1) h
        · have heq : computePreferredBody env (some n) none =
              step7And8 env (some n) none env.defaultPythonControllerConn 1 [] := by
            simp [computePreferredBody, isJupyterNotebookDoc, hty, awaitTick, cancelledAt,
              h4, hcA, hpc0]
          rw [heq] at h ⊢
          exact step7And8_cancel env n _ 1 [] (by omega) (by simp) h
    · rcases jupyterSearch_cancel env n 0 (by omega) with
        ⟨out, hjs, hres, hstep, heffs⟩ | ⟨conn, t2, effs, hjs, ht2, heffs, hclean⟩
      · have heq : computePreferredBody env (some n) none = out := by
          simp [computePreferredBody, isJupyterNotebookDoc, hty, awaitTick, cancelledAt,
            h4, h0, hjs]
        rw [heq]
        exact ⟨hres, fun e he' => (heffs e he').1⟩
      · have heq : computePreferredBody env (some n) none =
            step7And8 env (some n) none (some conn) t2 effs := by
          simp [computePreferredBody, isJupyterNotebookDoc, hty, awaitTick, cancelledAt,
            h4, h0, hjs]
        rw [heq] at h ⊢
        exact step7And8_cancel env n (some conn) t2 effs ht2
          (fun e he' => (heffs e he').1) h
  case interactiveWindow =>
    by_cases hc : n ≤ 2
    · have hieq := (interactiveSearch_cancel env n 0 (by omega)).1 hc
      have heq : computePreferredBody env (some n) none =
          { result := some CPResult.empty, effects := [], finalTick := n, step7Tick := none } := by
        simp [computePreferredBody, isJupyterNotebookDoc, hty, awaitTick, cancelledAt,
          h0, hieq]
      rw [heq]
      exact ⟨rfl, by simp⟩
    · have hieq := (interactiveSearch_cancel env n 0 (by omega)).2 (by omega)
      have heq : computePreferredBody env (some n) none =
          step7And8 env (some n) none env.defaultInteractiveControllerConn 2 [] := by
        simp [computePreferredBody, isJupyterNotebookDoc, hty, awaitTick, cancelledAt,
          h0, hieq]
      rw [heq] at h ⊢
      exact step7And8_cancel env n _ 2 [] (by omega) (by simp) h
  case other =>
    exfalso
    simp [computePreferredBody, isJupyterNotebookDoc, hty] at h
    omega

/-- Helper (cancellation window between steps 4 and 7): when the token flips
after the short-circuit check of step 4 but no later than the tick at which
the uncancelled run would resolve the final candidate (step 7), the body
returns the empty result and performs no affinity change and no
document-to-controller mapping store. -/
theorem cp_window (env : CPEnv) (n k : Nat)
    (h4t : step4Tick env < n)
    (h7 : (computePreferredBody env none none).step7Tick = some k)
    (hk : n ≤ k) :
    (computePreferredBody env (some n) none).result = some CPResult.empty ∧
    ∀ e ∈ (computePreferredBody env (some n) none).effects,
      isAffinityOrMapping e.eff = false := by
  have h0 : ¬ n ≤ 0 := by omega
  rcases hty : env.notebookType with _ | _ | _
  case jupyterNotebook =>
    by_cases h4 : (!env.isLocalLaunch && (env.isPythonNotebook || env.resourceIsInteractive)) = true
    · have hst : step4Tick env = 1 := by simp [step4Tick, hty, h4]
      rw [hst] at h4t
      by_cases hpc0 : env.defaultPythonControllerConn.isNone = true
      · rcases hcljs : jupyterSearch env none none 1 with outc | ⟨connc, t2c, effsc⟩
        · have hcleanbody : computePreferredBody env none none = outc := by
            simp [computePreferredBody, isJupyterNotebookDoc, hty, awaitTick, cancelledAt,
              h4, hpc0, hcljs]
          rw [hcleanbody] at h7
          rw [jupyterSearch_inl_step7 env none none 1 outc hcljs] at h7
          exact absurd h7 (by simp)
        · have hcleanbody : computePreferredBody env none none =
              step7And8 env none none (some connc) t2c effsc := by
            simp [computePreferredBody, isJupyterNotebookDoc, hty, awaitTick, cancelledAt,
              h4, hpc0, hcljs]
          rw [hcleanbody, step7And8_step7Tick] at h7
          have hkk : t2c = k := Option.some.inj h7
          subst hkk
          rcases jupyterSearch_cancel env n 1 (by omega) with
            ⟨out, hjs, hres, hstep, heffs⟩ | ⟨conn, t2, effs, hjs, ht2, heffs, hclean⟩
          · have heq : computePreferredBody env (some n) none = out := by
              simp [computePreferredBody, isJupyterNotebookDoc, hty, awaitTick, cancelledAt,
                h4, (show ¬ n ≤ 1 by omega), hpc0, hjs]
            rw [heq]
            exact ⟨hres, fun e he' => (heffs e he').2⟩
          · exfalso
            rw [hclean] at hcljs
            injection hcljs with hc1
            have : t2 = t2c := by
              have := congrArg (fun p => p.2.1) hc1
              simpa using this
            omega
      · have hcleanbody : computePreferredBody env none none =
            step7And8 env none none env.defaultPythonControllerConn 1 [] := by
          simp [computePreferredBody, isJupyterNotebookDoc, hty, awaitTick, cancelledAt,
            h4, hpc0]
        rw [hcleanbody, step7And8_step7Tick] at h7
        have hkk : 1 = k := Option.some.inj h7
        exfalso
        omega
    · have hst : step4Tick env = 0 := by simp [step4Tick, hty, h4]
      rw [hst] at h4t
      rcases hcljs : jupyterSearch env none none 0 with outc | ⟨connc, t2c, effsc⟩
      · have hcleanbody : computePreferredBody env none none = outc := by
          simp [computePreferredBody, isJupyterNotebookDoc, hty, awaitTick, cancelledAt,
            h4, hcljs]
        rw [hcleanbody] at h7
        rw [jupyterSearch_inl_step7 env none none 0 outc hcljs] at h7
        exact absurd h7 (by simp)
      · have hcleanbody : computePreferredBody env none none =
            step7And8 env none none (some connc) t2c effsc := by
          simp [computePreferredBody, isJupyterNotebookDoc, hty, awaitTick, cancelledAt,
            h4, hcljs]
        rw [hcleanbody, step7And8_step7Tick] at h7
        have hkk : t2c = k := Option.some.inj h7
        subst hkk
        rcases jupyterSearch_cancel env n 0 (by omega) with
          ⟨out, hjs, hres, hstep, heffs⟩ | ⟨conn, t2, effs, hjs, ht2, heffs, hclean⟩
        · have heq : computePreferredBody env (some n) none = out := by
            simp [computePreferredBody, isJupyterNotebookDoc, hty, awaitTick, cancelledAt,
              h4, h0, hjs]
          rw [heq]
          exact ⟨hres, fun e he' => (heffs e he').2⟩
        · exfalso
          rw [hclean] at hcljs
          injection hcljs with hc1
          have : t2 = t2c := by
            have := congrArg (fun p => p.2.1) hc1
            simpa using this
          omega
  case interactiveWindow =>
    have hst : step4Tick env = 0 := by simp [step4Tick, hty]
    rw [hst] at h4t
    have hcleanbody : computePreferredBody env none none =
        step7And8 env none none env.defaultInteractiveControllerConn 2 [] := by
      simp [computePreferredBody, isJupyterNotebookDoc, hty, awaitTick, cancelledAt,
        interactiveSearch_clean]
    rw [hcleanbody, step7And8_step7Tick] at h7
    have hkk : 2 = k := Option.some.inj h7
    have hieq := (interactiveSearch_cancel env n 0 (by omega)).1 (by omega)
    have heq : computePreferredBody env (some n) none =
        { result := some CPResult.empty, effects := [], finalTick := n, step7Tick := none } := by
      simp [computePreferredBody, isJupyterNotebookDoc, hty, awaitTick, cancelledAt,
        h0, hieq]
    rw [heq]
    exact ⟨rfl, by simp⟩
  case other =>
    exfalso
    simp [computePreferredBody, isJupyterNotebookDoc, hty] at h7

/-- C3: every step of `computePreferred` after the cancellation handle is
created checks that handle and aborts returning the empty result with no side
effects as soon as it is signalled — whenever the token flips at a tick
`n ≥ 1` within the run, the result is empty and every performed side effect
predates the flip; in particular, for every run whose token is cancelled after
the default-controller short-circuit check (step 4, tick `step4Tick`) but no
later than the tick `k` at which the uncancelled run resolves the final
candidate (step 7), the result is empty and no affinity change and no
document-to-candidate mapping store is performed. -/
theorem computePreferred_C3 (env : CPEnv) (n k : Nat) (hn : 1 ≤ n) :
    (n ≤ (computePreferred env (some n) none).2.2 →
       (computePreferred env (some n) none).1 = CPResult.empty ∧
       ∀ e ∈ (computePreferred env (some n) none).2.1, e.tick < n) ∧
    (step4Tick env < n →
     (computePreferredBody env none none).step7Tick = some k →
     n ≤ k →
       (computePreferred env (some n) none).1 = CPResult.empty ∧
       ∀ e ∈ (computePreferred env (some n) none).2.1,
         isAffinityOrMapping e.eff = false) := by
  have hwrap : ∀ (r : CPResult),
      (computePreferredBody env (some n) none).result = some r →
      (computePreferred env (some n) none).1 = r := by
    intro r hr
    simp [computePreferred, hr]
  have heffwrap : (computePreferred env (some n) none).2.1 =
      (computePreferredBody env (some n) none).effects := by
    unfold computePreferred
    rcases h : (computePreferredBody env (some n) none).result <;> simp [h]
  have hfinwrap : (computePreferred env (some n) none).2.2 =
      (computePreferredBody env (some n) none).finalTick := by
    unfold computePreferred
    rcases h : (computePreferredBody env (some n) none).result <;> simp [h]
  constructor
  · intro h
    rw [hfinwrap] at h
    obtain ⟨hr, he⟩ := cp_general env n hn h
    rw [heffwrap]
    exact ⟨hwrap _ hr, he⟩
  · intro hw1 hw2 hw3
    obtain ⟨hr, he⟩ := cp_window env n k hw1 hw2 hw3
    rw [heffwrap]
    exact ⟨hwrap _ hr, he⟩

/-- Witness for C3: an interactive-window document whose token flips at tick
1 — during the awaited controller-loader wait, after the step-4 check (tick 0)
and before the step-7 resolution of the uncancelled run (tick 2): the result
is empty, no effect is logged at or after the flip, and no affinity or mapping
effect is performed at all. -/
theorem computePreferred_C3_witness :
    ((computePreferred
        ⟨NbType.interactiveWindow, true, false, false, none, none, false, none,
         fun _ _ => false, fun _ => false, none, none, none, [], fun _ _ => none,
         some ⟨"dc", some "python"⟩, none⟩ (some 1) none).1 = CPResult.empty ∧
     ∀ e ∈ (computePreferred
        ⟨NbType.interactiveWindow, true, false, false, none, none, false, none,
         fun _ _ => false, fun _ => false, none, none, none, [], fun _ _ => none,
         some ⟨"dc", some "python"⟩, none⟩ (some 1) none).2.1, e.tick < 1) ∧
    ((computePreferred
        ⟨NbType.interactiveWindow, true, false, false, none, none, false, none,
         fun _ _ => false, fun _ => false, none, none, none, [], fun _ _ => none,
         some ⟨"dc", some "python"⟩, none⟩ (some 1) none).1 = CPResult.empty ∧
     ∀ e ∈ (computePreferred
        ⟨NbType.interactiveWindow, true, false, false, none, none, false, none,
         fun _ _ => false, fun _ => false, none, none, none, [], fun _ _ => none,
         some ⟨"dc", some "python"⟩, none⟩ (some 1) none).2.1,
       isAffinityOrMapping e.eff = false) :=
  ⟨(computePreferred_C3
      ⟨NbType.interactiveWindow, true, false, false, none, none, false, none,
       fun _ _ => false, fun _ => false, none, none, none, [], fun _ _ => none,
       some ⟨"dc", some "python"⟩, none⟩ 1 2 (by decide)).1 (by decide),
   (computePreferred_C3
      ⟨NbType.interactiveWindow, true, false, false, none, none, false, none,
       fun _ _ => false, fun _ => false, none, none, none, [], fun _ _ => none,
       some ⟨"dc", some "python"⟩, none⟩ 1 2 (by decide)).2 (by decide) rfl (by decide)⟩

end ControllerPreferredService
